import Mathlib

/-!
# bmdplay: packet queues, timestamp normalisation, output scheduling

A shallow embedding of `src/bmdplay.cpp`.

* Machine integers are `Int`/`Nat` with explicit reduction into the width of
  the C type (`wrapInt32` for `int`, `wrapInt64` for `int64_t`, `% 2^64` for
  `uint64_t`).
* The singly linked list `first_pkt → … → last_pkt` of a `PacketQueue` is a
  `List AVPacket`; `last_pkt` is its last cell.
* Everything the program does to the outside world (stderr, the serial
  descriptor, the decoder, the DeckLink device) is recorded as a trace of
  `Event`s; everything the outside world answers is an explicit argument.
-/

namespace BmdPlay

/-! ## Machine arithmetic -/

/-- Reduction of an integer into the range of a 32-bit two's-complement `int`. -/
def wrapInt32 (x : Int) : Int := (x + 2 ^ 31) % 2 ^ 32 - 2 ^ 31

/-- Reduction of an integer into the range of `int64_t`. -/
def wrapInt64 (x : Int) : Int := (x + 2 ^ 63) % 2 ^ 64 - 2 ^ 63

/-- The libavutil constant `((int64_t)UINT64_C(0x8000000000000000))`. -/
def AV_NOPTS_VALUE : Int := -(2 ^ 63)

/-! ## Data model -/

/-- The libavutil enumeration `AVMediaType`. -/
inductive AVMediaType where
  | AVMEDIA_TYPE_UNKNOWN
  | AVMEDIA_TYPE_VIDEO
  | AVMEDIA_TYPE_AUDIO
  | AVMEDIA_TYPE_DATA
  | AVMEDIA_TYPE_SUBTITLE
  | AVMEDIA_TYPE_ATTACHMENT
  deriving DecidableEq, Repr

open AVMediaType

/-- The fields of `AVPacket` the program reads: `data` is the buffer behind the
pointer `pkt.data` (the empty list is a null pointer), `size` the payload
length in bytes. -/
structure AVPacket where
  pts : Int
  duration : Int
  data : List Nat
  size : Int
  stream_index : Nat
  deriving DecidableEq, Repr

/-- The struct `PacketQueue` of lines 70-77, without the mutex and the
condition variable: `first_pkt` is the chain of list cells starting at
`first_pkt` and ending at `last_pkt`. -/
structure PacketQueue where
  first_pkt : List AVPacket
  nb_packets : Nat
  size : Int
  abort_request : Int
  deriving DecidableEq, Repr

/-! ## The queue operations (lines 84-189) -/

/-- `packet_queue_init`: `memset(q, 0, sizeof(PacketQueue))`. -/
def packet_queue_init : PacketQueue :=
  { first_pkt := [], nb_packets := 0, size := 0, abort_request := 0 }

/-- `packet_queue_flush`: every cell is released, both pointers and both
counters are cleared; `abort_request` is not touched. -/
def packet_queue_flush (q : PacketQueue) : PacketQueue :=
  { q with first_pkt := [], nb_packets := 0, size := 0 }

/-- `packet_queue_end`: flush, then `abort_request = -1`. -/
def packet_queue_end (q : PacketQueue) : PacketQueue :=
  { packet_queue_flush q with abort_request := -1 }

/-- What `packet_queue_put` leaves behind: the queue, the return value and,
when the `nb_packets > 5000` diagnostic is printed, the count it prints. -/
structure PutResult where
  q : PacketQueue
  ret : Int
  diag : Option Nat
  deriving DecidableEq, Repr

/-- `packet_queue_put`.  `sizeofCell` is `sizeof(AVPacketList)`, `alloc` tells
whether `av_malloc` returned a cell.  `q->size += pkt1->pkt.size + sizeof(*pkt1)`
is evaluated in `size_t` and stored back into the `int` counter. -/
def packet_queue_put (sizeofCell : Nat) (q : PacketQueue) (pkt : AVPacket)
    (alloc : Bool) : PutResult :=
  if alloc = false then
    { q := q, ret := -1, diag := none }
  else
    let nb := (q.nb_packets + 1) % 2 ^ 64
    { q := { q with
              first_pkt := q.first_pkt ++ [pkt]
              nb_packets := nb
              size := wrapInt32 (q.size + (pkt.size + sizeofCell)) }
      ret := 0
      diag := if nb > 5000 then some nb else none }

/-- What `packet_queue_get` leaves behind.  `ret = none` means the caller is
still suspended in `pthread_cond_wait`; `waits` counts how often the condition
wait was entered; `pkt` is the content of `*pkt`. -/
structure GetResult where
  q : PacketQueue
  pkt : AVPacket
  ret : Option Int
  waits : Nat
  diag : Option Nat
  deriving DecidableEq, Repr

/-- One pass through the body of the `for (;;)` loop of `packet_queue_get`:
the result with which the loop is left, or `none` when the pass reaches
`pthread_cond_wait`. -/
def packet_queue_get_pass (sizeofCell : Nat) (q : PacketQueue) (pkt : AVPacket)
    (block : Int) : Option GetResult :=
  match q.first_pkt with
  | pkt1 :: next =>
    let nb := (q.nb_packets + 2 ^ 64 - 1) % 2 ^ 64
    some
      { q := { q with
                first_pkt := next
                nb_packets := nb
                size := wrapInt32 (q.size - (pkt1.size + sizeofCell)) }
        pkt := pkt1
        ret := some 1
        waits := 0
        diag := if nb > 5000 then some nb else none }
  | [] =>
    if block = 0 then
      some { q := q, pkt := pkt, ret := some 0, waits := 0, diag := none }
    else if q.abort_request ≠ 0 then
      some { q := q, pkt := pkt, ret := some (-1), waits := 0, diag := none }
    else none

/-- `packet_queue_get`.  `pkt` is the content of `*pkt` on entry.  Each element
of the last argument is the state in which the queue is found when one
`pthread_cond_wait` returns (the other threads changed it meanwhile); when the
list is used up the caller stays suspended. -/
def packet_queue_get (sizeofCell : Nat) (q : PacketQueue) (pkt : AVPacket)
    (block : Int) : List PacketQueue → GetResult
  | [] =>
    match packet_queue_get_pass sizeofCell q pkt block with
    | some r => r
    | none => { q := q, pkt := pkt, ret := none, waits := 1, diag := none }
  | q' :: rest =>
    match packet_queue_get_pass sizeofCell q pkt block with
    | some r => r
    | none =>
      let r := packet_queue_get sizeofCell q' pkt block rest
      { r with waits := r.waits + 1 }

/-! ## Process-wide state and the outside world -/

/-- The libavutil struct `AVRational`. -/
structure AVRational where
  num : Int
  den : Int
  deriving DecidableEq, Repr

/-- One observable action of the program, in program order. -/
inductive Event where
  /-- Line 139: the "storing ... is the input faster than realtime?" message. -/
  | stderr_storing (nb : Nat) (isVideoQueue : Bool)
  /-- Line 167: the "pulling ..." message. -/
  | stderr_pulling (nb : Nat) (isVideoQueue : Bool)
  /-- Line 210: "Queue size %d problems ahead". -/
  | stderr_queue_size (size : Int)
  /-- Line 205: `pthread_cond_signal(&sleepCond)`. -/
  | signal_sleepCond
  | av_packet_unref (pkt : AVPacket)
  /-- Line 704: the "written ..." message. -/
  | stderr_written (bytes : List Nat)
  /-- Line 705: `write(serial_fd, pkt.data, pkt.size)`. -/
  | write (fd : Int) (bytes : List Nat)
  | CreateVideoFrame (width height rowBytes : Int)
  | GetBytes
  | avcodec_send_packet (pkt : AVPacket)
  | avcodec_receive_frame (ret : Int)
  | av_image_fill_arrays
  | sws_scale
  | ScheduleVideoFrame (displayTime displayDuration timeScale : Int)
  /-- Line 743: "Error scheduling frame". -/
  | stderr_error_scheduling
  /-- Line 745: `videoFrame->Release()`. -/
  | Release
  | GetBufferedAudioSampleFrameCount
  /-- Line 772: `offset` is the byte offset added to `pkt.data`. -/
  | ScheduleAudioSamples (offset : Int) (sampleFrameCount : Nat) (streamTime : Int)
      (timeScale : Int)
  /-- Line 778: "error writing audio sample". -/
  | stderr_error_writing
  | StartScheduledPlayback
  deriving DecidableEq, Repr

/-- The mutable globals of the program and the trace of what it has done. -/
structure World where
  audioqueue : PacketQueue
  videoqueue : PacketQueue
  dataqueue : PacketQueue
  first_audio_pts : Int
  first_video_pts : Int
  first_pts : Int
  fill_me : Int
  trace : List Event
  deriving DecidableEq, Repr

/-- What is fixed once playback runs.  `streams i` is
`ic->streams[i]->codecpar->codec_type`; `audio_st` is the time base of
`audio.st`, `none` when that pointer is null; `video_st` is the time base of
`video.st`, which `main` (lines 433-437) guarantees to be non-null;
`av_rescale_q` is the libavutil function; `sample_bytes` is
`av_get_bytes_per_sample(audio.codec->sample_fmt)` and `channels` is
`audio.codec->channels`. -/
structure Config where
  sizeofCell : Nat
  streams : Nat → AVMediaType
  audio_st : Option AVRational
  video_st : AVRational
  av_rescale_q : Int → AVRational → AVRational → Int
  serial_fd : Int
  m_frameWidth : Int
  m_frameHeight : Int
  sample_bytes : Int
  channels : Int

/-- Line 68. -/
def kAudioWaterlevel : Nat := 48000 / 4

/-- Lines 191-194 and the queues as `packet_queue_init` leaves them. -/
def World.initial : World :=
  { audioqueue := packet_queue_init
    videoqueue := packet_queue_init
    dataqueue := packet_queue_init
    first_audio_pts := AV_NOPTS_VALUE
    first_video_pts := AV_NOPTS_VALUE
    first_pts := AV_NOPTS_VALUE
    fill_me := 1
    trace := [] }

/-- The stderr line of `packet_queue_put`, if it is printed. -/
def storingEvents (diag : Option Nat) (isVideoQueue : Bool) : List Event :=
  match diag with
  | some nb => [Event.stderr_storing nb isVideoQueue]
  | none => []

/-- The stderr line of `packet_queue_get`, if it is printed. -/
def pullingEvents (diag : Option Nat) (isVideoQueue : Bool) : List Event :=
  match diag with
  | some nb => [Event.stderr_pulling nb isVideoQueue]
  | none => []

/-! ## The producer thread (lines 196-250) -/

/-- One iteration of the `while (fill_me)` loop of `fill_queues` after
`av_read_frame` delivered `pkt`.  `once` is the local counter, `alloc` the
outcome of the `av_malloc` inside `packet_queue_put`.  The result is `none`
when the iteration dereferences the null `audio.st` (line 234). -/
def fill_queues_body (cfg : Config) (w : World) (once : Int) (pkt : AVPacket)
    (alloc : Bool) : Option (World × Int) :=
  let warn : List Event :=
    if w.videoqueue.nb_packets > 1000 ∧ once = 0 then
      [Event.stderr_queue_size w.videoqueue.size] else []
  let once1 : Int := if w.videoqueue.nb_packets > 1000 then wrapInt32 (once + 1) else once
  let w0 : World := { w with trace := w.trace ++ warn }
  match cfg.streams pkt.stream_index with
  | AVMEDIA_TYPE_VIDEO =>
    let w1 : World :=
      if pkt.pts ≠ AV_NOPTS_VALUE ∧ w0.first_pts = AV_NOPTS_VALUE then
        { w0 with
          first_pts := pkt.pts
          first_video_pts := pkt.pts
          first_audio_pts :=
            match cfg.audio_st with
            | some atb => cfg.av_rescale_q pkt.pts cfg.video_st atb
            | none => w0.first_audio_pts }
      else w0
    let pkt1 : AVPacket :=
      if pkt.pts ≠ AV_NOPTS_VALUE then
        { pkt with pts := wrapInt64 (pkt.pts - w1.first_video_pts) } else pkt
    let r := packet_queue_put cfg.sizeofCell w1.videoqueue pkt1 alloc
    some ({ w1 with videoqueue := r.q, trace := w1.trace ++ storingEvents r.diag true }, once1)
  | AVMEDIA_TYPE_AUDIO =>
    let w1? : Option World :=
      if pkt.pts ≠ AV_NOPTS_VALUE ∧ w0.first_pts = AV_NOPTS_VALUE then
        match cfg.audio_st with
        | some atb =>
          some { w0 with
                 first_pts := pkt.pts
                 first_audio_pts := pkt.pts
                 first_video_pts := cfg.av_rescale_q pkt.pts atb cfg.video_st }
        | none => none
      else some w0
    match w1? with
    | none => none
    | some w1 =>
      let pkt1 : AVPacket :=
        if pkt.pts ≠ AV_NOPTS_VALUE then
          { pkt with pts := wrapInt64 (pkt.pts - w1.first_audio_pts) } else pkt
      let r := packet_queue_put cfg.sizeofCell w1.audioqueue pkt1 alloc
      some ({ w1 with audioqueue := r.q, trace := w1.trace ++ storingEvents r.diag false },
            once1)
  | AVMEDIA_TYPE_DATA =>
    let r := packet_queue_put cfg.sizeofCell w0.dataqueue pkt alloc
    some ({ w0 with dataqueue := r.q, trace := w0.trace ++ storingEvents r.diag false }, once1)
  | _ =>
    some ({ w0 with trace := w0.trace ++ [Event.av_packet_unref pkt] }, once1)

/-- The loop of `fill_queues` from a given value of `once`.  `reads` are the
packets `av_read_frame` delivers, each with the outcome of the allocation in
its `packet_queue_put`; after the last one `av_read_frame` reports an error.
The result is the state in which the thread returns. -/
def fill_queues_loop (cfg : Config) (w : World) (once : Int) :
    List (AVPacket × Bool) → Option World
  | [] =>
    if w.fill_me ≠ 0 then some { w with trace := w.trace ++ [Event.signal_sleepCond] }
    else some w
  | (pkt, alloc) :: rest =>
    if w.fill_me ≠ 0 then
      match fill_queues_body cfg w once pkt alloc with
      | some (w', once') => fill_queues_loop cfg w' once' rest
      | none => none
    else some w

/-- The thread function `fill_queues`: the loop entered with `once = 0`. -/
def fill_queues (cfg : Config) (w : World) (reads : List (AVPacket × Bool)) : Option World :=
  fill_queues_loop cfg w 0 reads

/-! ## The output scheduler (lines 696-747) -/

/-- The zero-initialised packet `AVPacket pkt = { 0 }`. -/
def AVPacket.zero : AVPacket :=
  { pts := 0, duration := 0, data := [], size := 0, stream_index := 0 }

/-- The first `pkt.size` bytes behind `pkt.data`. -/
def AVPacket.payload (pkt : AVPacket) : List Nat := pkt.data.take pkt.size.toNat

/-- The content of a packet after `av_packet_unref(&pkt)`: the buffer is
released and every field is back at its default (`pts` unknown, `data` null,
`size` 0). -/
def av_packet_unref (_ : AVPacket) : AVPacket :=
  { pts := AV_NOPTS_VALUE, duration := 0, data := [], size := 0, stream_index := 0 }

/-- Lines 702-708 of `Player::ScheduleNextFrame`: the forwarding of one packet
of the data queue to the serial descriptor.  `pkt` is the content of the local
`pkt` on entry; the result carries its content on exit, which after line 707
is the reset packet.  The result is `none` when `pkt.data[0]` reads through a
null pointer. -/
def serial_forwarding (cfg : Config) (w : World) (pkt : AVPacket) :
    Option (World × AVPacket) :=
  if cfg.serial_fd > 0 then
    let r := packet_queue_get cfg.sizeofCell w.dataqueue pkt 0 []
    let w1 : World := { w with dataqueue := r.q, trace := w.trace ++ pullingEvents r.diag false }
    if r.ret ≠ some 0 then
      match r.pkt.data with
      | [] => none
      | b :: _ =>
        let out : List Event :=
          if b ≠ 32 then
            [Event.stderr_written r.pkt.payload, Event.write cfg.serial_fd r.pkt.payload]
          else []
        some ({ w1 with trace := w1.trace ++ out ++ [Event.av_packet_unref r.pkt] },
              av_packet_unref r.pkt)
    else some (w1, r.pkt)
  else some (w, pkt)

/-- `Player::ScheduleNextFrame`.  `pkt0` is the indeterminate initial content
of the local `pkt`, `recv` the value returned by `avcodec_receive_frame`,
`sched` the `HRESULT` of `ScheduleVideoFrame` (`0` is `S_OK`). -/
def ScheduleNextFrame (cfg : Config) (w : World) (pkt0 : AVPacket) (recv : Int)
    (sched : Int) : Option World :=
  match serial_forwarding cfg w pkt0 with
  | none => none
  | some (w1, pkt1) =>
    let r := packet_queue_get cfg.sizeofCell w1.videoqueue pkt1 0 []
    let w2 : World := { w1 with videoqueue := r.q, trace := w1.trace ++ pullingEvents r.diag true }
    match r.ret with
    | none => some w2
    | some ret =>
      if ret < 0 then some w2
      else
        let pkt := r.pkt
        let decoded : List Event :=
          if recv ≥ 0 then
            [Event.av_image_fill_arrays, Event.sws_scale,
             Event.ScheduleVideoFrame (wrapInt64 (pkt.pts * cfg.video_st.num))
               (wrapInt64 (pkt.duration * cfg.video_st.num)) cfg.video_st.den] ++
            (if sched ≠ 0 then [Event.stderr_error_scheduling] else [])
          else []
        some { w2 with
               trace := w2.trace ++
                 [Event.CreateVideoFrame cfg.m_frameWidth cfg.m_frameHeight
                    (cfg.m_frameWidth * 2),
                  Event.GetBytes, Event.avcodec_send_packet pkt,
                  Event.avcodec_receive_frame recv] ++ decoded ++
                 [Event.Release, Event.av_packet_unref pkt] }

/-! ## The audio feeder (lines 749-784) -/

/-- What the device answers to one `ScheduleAudioSamples`: the `HRESULT`
(`0` is `S_OK`) and the value it stores in `samplesWritten`. -/
structure DeviceReply where
  result : Int
  samplesWritten : Nat
  deriving DecidableEq, Repr

/-- How a run of the feeder stands when the given device replies are used up:
it has returned, it has divided by zero, or it is inside the submit loop
waiting for the answer to the submission it issued last. -/
inductive Status where
  | returned
  | undefined
  | submitting
  deriving DecidableEq, Repr

/-- The `do { ... } while (samples > 0)` loop of lines 771-781, entered with the
given values of `samples` and `off`; `tb` is `audio.st->time_base`, `stride` is
`bytes_per_sample`.  One reply is consumed per submission. -/
def submit_loop (tb : AVRational) (stride : Int) (pkt : AVPacket) :
    Int → Int → List DeviceReply → List Event × Status
  | samples, off, replies =>
    if tb.num = 0 then ([], Status.undefined)
    else
      let call : Event :=
        Event.ScheduleAudioSamples (wrapInt32 (off * stride)) (samples % 2 ^ 32).toNat
          (wrapInt64 (pkt.pts + off)) (wrapInt32 (Int.tdiv tb.den tb.num))
      match replies with
      | [] => ([call], Status.submitting)
      | r :: rest =>
        let err : List Event := if r.result ≠ 0 then [Event.stderr_error_writing] else []
        let samples' := wrapInt32 (samples - r.samplesWritten)
        let off' := wrapInt32 (off + r.samplesWritten)
        if samples' > 0 then
          let next := submit_loop tb stride pkt samples' off' rest
          (call :: err ++ next.1, next.2)
        else (call :: err, Status.returned)

/-- `Player::WriteNextAudioSamples`, called with `audio.st` non-null (its only
caller is `RenderAudioSamples`); `tb` is `audio.st->time_base`,
`bufferedSamples` the count the device reports. -/
def WriteNextAudioSamples (cfg : Config) (tb : AVRational) (w : World)
    (bufferedSamples : Nat) (replies : List DeviceReply) : World × Status :=
  let bytes_per_sample := wrapInt32 (cfg.sample_bytes * cfg.channels)
  let w0 : World := { w with trace := w.trace ++ [Event.GetBufferedAudioSampleFrameCount] }
  if bufferedSamples > kAudioWaterlevel then (w0, Status.returned)
  else
    let r := packet_queue_get cfg.sizeofCell w0.audioqueue AVPacket.zero 0 []
    let w1 : World :=
      { w0 with audioqueue := r.q, trace := w0.trace ++ pullingEvents r.diag false }
    if r.ret = some 0 then (w1, Status.returned)
    else if bytes_per_sample = 0 then (w1, Status.undefined)
    else
      let samples := wrapInt32 (Int.tdiv r.pkt.size bytes_per_sample)
      let out := submit_loop tb bytes_per_sample r.pkt samples 0 replies
      match out.2 with
      | Status.returned =>
        ({ w1 with trace := w1.trace ++ out.1 ++ [Event.av_packet_unref r.pkt] },
         Status.returned)
      | st => ({ w1 with trace := w1.trace ++ out.1 }, st)

/-- `Player::RenderAudioSamples`. -/
def RenderAudioSamples (cfg : Config) (w : World) (preroll : Bool)
    (bufferedSamples : Nat) (replies : List DeviceReply) : World × Status :=
  match cfg.audio_st with
  | none => (w, Status.returned)
  | some tb =>
    let out := WriteNextAudioSamples cfg tb w bufferedSamples replies
    match out.2 with
    | Status.returned =>
      if preroll then
        ({ out.1 with trace := out.1.trace ++ [Event.StartScheduledPlayback] }, Status.returned)
      else out
    | _ => out

/-! ## Sequences of queue calls -/

/-- `packet_queue_put` of the given packets in order, every allocation
succeeding. -/
def put_all (sizeofCell : Nat) (q : PacketQueue) : List AVPacket → PacketQueue
  | [] => q
  | p :: ps => put_all sizeofCell (packet_queue_put sizeofCell q p true).q ps

/-- Successive `packet_queue_get` calls into the same packet variable, each
with its own `block` argument and its own wake-ups; the result is the final
queue and, per call, the return value and the packet variable after it. -/
def get_all (sizeofCell : Nat) :
    PacketQueue → AVPacket → List (Int × List PacketQueue) →
      PacketQueue × List (Option Int × AVPacket)
  | q, _, [] => (q, [])
  | q, pkt, (block, wakeups) :: rest =>
    let r := packet_queue_get sizeofCell q pkt block wakeups
    let t := get_all sizeofCell r.q r.pkt rest
    (t.1, (r.ret, r.pkt) :: t.2)

/-- One call on a queue made by the thread under consideration. -/
inductive QueueOp where
  | put (pkt : AVPacket) (alloc : Bool)
  | get (pkt : AVPacket) (block : Int)
  | flush
  | endq
  deriving DecidableEq, Repr

/-- The queue after one call; a `get` that suspends is not woken up. -/
def QueueOp.apply (sizeofCell : Nat) (q : PacketQueue) : QueueOp → PacketQueue
  | QueueOp.put pkt alloc => (packet_queue_put sizeofCell q pkt alloc).q
  | QueueOp.get pkt block => (packet_queue_get sizeofCell q pkt block []).q
  | QueueOp.flush => packet_queue_flush q
  | QueueOp.endq => packet_queue_end q

/-- The queue after a sequence of calls. -/
def run_ops (sizeofCell : Nat) (q : PacketQueue) (ops : List QueueOp) : PacketQueue :=
  ops.foldl (QueueOp.apply sizeofCell) q

/-- Sum over the queued cells of payload size plus cell overhead. -/
def queued_bytes (sizeofCell : Nat) (pkts : List AVPacket) : Int :=
  (pkts.map (fun p => p.size + (sizeofCell : Int))).sum

/-! ## Sequences of producer iterations -/

/-- Successive iterations of the loop body of `fill_queues` on the given
packets (each with the outcome of its allocation). -/
def fill_queues_iterate (cfg : Config) :
    World → Int → List (AVPacket × Bool) → Option (World × Int)
  | w, once, [] => some (w, once)
  | w, once, (pkt, alloc) :: rest =>
    match fill_queues_body cfg w once pkt alloc with
    | some (w', once') => fill_queues_iterate cfg w' once' rest
    | none => none

/-- The packet belongs to a video or audio stream and `pkt.pts` is known. -/
def timestamped_av (cfg : Config) (pkt : AVPacket) : Prop :=
  pkt.pts ≠ AV_NOPTS_VALUE ∧
    (cfg.streams pkt.stream_index = AVMEDIA_TYPE_VIDEO ∨
      cfg.streams pkt.stream_index = AVMEDIA_TYPE_AUDIO)

instance (cfg : Config) (pkt : AVPacket) : Decidable (timestamped_av cfg pkt) := by
  unfold timestamped_av; infer_instance

/-- The three origins of the timestamp normalisation agree in both states. -/
def same_origins (w w' : World) : Prop :=
  w'.first_pts = w.first_pts ∧ w'.first_video_pts = w.first_video_pts ∧
    w'.first_audio_pts = w.first_audio_pts

/-- The packet with its timestamp moved by `origin`, in `int64_t`. -/
def shift_pts (origin : Int) (pkt : AVPacket) : AVPacket :=
  { pkt with pts := wrapInt64 (pkt.pts - origin) }

/-- The packet belongs to a video stream. -/
def is_video (cfg : Config) (pkt : AVPacket) : Bool :=
  decide (cfg.streams pkt.stream_index = AVMEDIA_TYPE_VIDEO)

/-- The timestamp of the first packet of the list, 0 for the empty list. -/
def head_pts (pkts : List AVPacket) : Int :=
  match pkts with
  | [] => 0
  | p :: _ => p.pts

/-! ## Concrete configurations and sources -/

/-- A stand-in for `av_rescale_q`: `a * bq / cq` rounded down. -/
def rescale_floor (a : Int) (bq cq : AVRational) : Int :=
  (a * bq.num * cq.den) / (bq.den * cq.num)

/-- A configuration with a video stream at index 0 and a data stream at every
other index, no audio stream and no serial descriptor. -/
def video_only_cfg : Config :=
  { sizeofCell := 104
    streams := fun i => if i = 0 then AVMEDIA_TYPE_VIDEO else AVMEDIA_TYPE_DATA
    audio_st := none
    video_st := { num := 1, den := 1000 }
    av_rescale_q := rescale_floor
    serial_fd := -1
    m_frameWidth := 1920
    m_frameHeight := 1080
    sample_bytes := 2
    channels := 2 }

/-- A configuration with video at index 0, audio at index 1 (16-bit stereo,
time base 1/48000), data elsewhere, and the serial descriptor 5. -/
def av_serial_cfg : Config :=
  { sizeofCell := 104
    streams := fun i =>
      if i = 0 then AVMEDIA_TYPE_VIDEO else if i = 1 then AVMEDIA_TYPE_AUDIO
      else AVMEDIA_TYPE_DATA
    audio_st := some { num := 1, den := 48000 }
    video_st := { num := 1, den := 1000 }
    av_rescale_q := rescale_floor
    serial_fd := 5
    m_frameWidth := 1920
    m_frameHeight := 1080
    sample_bytes := 2
    channels := 2 }

/-- A packet of stream `i` with timestamp `t` and payload `bytes`. -/
def mk_packet (i : Nat) (t : Int) (bytes : List Nat) : AVPacket :=
  { pts := t, duration := 33, data := bytes, size := bytes.length, stream_index := i }

/-- Thirty video packets with the timestamps 1000, 1033, 1066, ... -/
def thirty_video_packets : List AVPacket :=
  (List.range 30).map (fun i => mk_packet 0 (1000 + 33 * i) [])

/-- A world whose audio queue holds one 16-bit stereo packet of ten samples
with timestamp 480. -/
def one_audio_packet_world : World :=
  { World.initial with
    audioqueue := put_all 104 packet_queue_init [mk_packet 1 480 (List.replicate 40 0)] }

/-- A world whose data queue holds one packet with the two-byte payload
`" a"`. -/
def space_letter_world : World :=
  { World.initial with
    dataqueue := put_all 104 packet_queue_init [mk_packet 2 0 [32, 97]] }

/-- The `ScheduleAudioSamples` calls of a trace, in order: byte offset,
requested sample count, stream time, time scale. -/
def submissions : List Event → List (Int × Nat × Int × Int)
  | [] => []
  | Event.ScheduleAudioSamples off n t scale :: rest => (off, n, t, scale) :: submissions rest
  | _ :: rest => submissions rest

/-- The `write` calls of a trace, in order: descriptor and bytes. -/
def writes : List Event → List (Int × List Nat)
  | [] => []
  | Event.write fd bytes :: rest => (fd, bytes) :: writes rest
  | _ :: rest => writes rest

/-- The number of samples the device accepted in the first `i` replies. -/
def accepted_before (replies : List DeviceReply) (i : Nat) : Nat :=
  ((replies.take i).map (fun r => r.samplesWritten)).sum

/-- The largest accepted count among the replies, 0 when there is none. -/
def largest_chunk (replies : List DeviceReply) : Nat :=
  (replies.map (fun r => r.samplesWritten)).foldr max 0

/-- A world whose data queue holds one packet with the payload `"ok"`. -/
def ok_world : World :=
  { World.initial with
    dataqueue := put_all 104 packet_queue_init [mk_packet 2 0 [111, 107]] }

/-- A configuration in which stream 1 is an audio stream for which no decoder
was found, so `audio.st` stayed null (`main`, lines 415-421): video at index 0,
audio packets at index 1, data elsewhere. -/
def undecoded_audio_cfg : Config :=
  { sizeofCell := 104
    streams := fun i =>
      if i = 0 then AVMEDIA_TYPE_VIDEO else if i = 1 then AVMEDIA_TYPE_AUDIO
      else AVMEDIA_TYPE_DATA
    audio_st := none
    video_st := { num := 1, den := 1000 }
    av_rescale_q := rescale_floor
    serial_fd := -1
    m_frameWidth := 1920
    m_frameHeight := 1080
    sample_bytes := 2
    channels := 2 }

/-! ## Start-up and shutdown (lines 428-602 and 632-694) -/

/-- What `Player::Init` reads of `audio.codec`: `channels` and the value of
`av_get_exact_bits_per_sample(audio.codec->codec_id)`. -/
structure AudioCodec where
  channels : Int
  exact_bits : Int
  deriving DecidableEq, Repr

/-- What the outside world answers during start-up and shutdown.  `iterator`
tells whether `CreateDeckLinkIteratorInstance` returned an object, `audio` is
`none` when `audio.st` is null, `next k` is the `HRESULT` of the `k`-th call of
`deckLinkIterator->Next` (`0` is `S_OK`), `macros_bail` tells whether the
`DECKLINK_SET_*_CONNECTION` macros of `compat.h` leave to `bail`, `buffer` is
the static `buffer`, `mode_found` tells whether `GetDisplayModeByIndex`
returned a mode, `woken` whether `sleepCond` is ever signalled.
`Player::Player()` (lines 466-471) does not initialise `m_deckLinkOutput` and
`m_deckLink`: `stale_output` and `stale_deckLink` tell whether the pointer is
non-null at `bail` when no successful call has stored it. -/
structure InitEnv where
  iterator : Bool
  stale_output : Bool
  stale_deckLink : Bool
  audio : Option AudioCodec
  next : Nat → Int
  query_output : Int
  query_configuration : Int
  macros_bail : Bool
  buffer : Int
  mode_found : Bool
  enable_video : Int
  enable_audio : Int
  begin_preroll : Int
  woken : Bool

/-- One action of `main`, `Player::Init`, `Player::StartRunning` or the `bail`
block, in program order. -/
inductive InitStep where
  /-- Line 429: "No audio stream found - bmdplay will just play video". -/
  | log_no_audio
  /-- Line 434: "No video stream found - bmdplay will close now." -/
  | log_no_video
  /-- Lines 439-453: `av_dump_format`, `sws_getContext`, `signal`, the
  initialisation of `sleepMutex` and `sleepCond`, `free(filename)`. -/
  | prepare_playback
  | avformat_close_input
  /-- Line 459: the "video ... audio ..." line. -/
  | stderr_queue_counts
  | CreateDeckLinkIteratorInstance
  /-- Line 481: "This application requires the DeckLink drivers installed." -/
  | stderr_drivers_required
  | av_get_exact_bits_per_sample
  /-- Line 496: "%d channels not supported, please use 2, 8 or 16". -/
  | stderr_channels_unsupported (channels : Int)
  /-- Line 507: "%lubit audio not supported use 16bit or 32bit". -/
  | stderr_depth_unsupported (bits : Int)
  /-- Line 513: one call of `deckLinkIterator->Next`. -/
  | Next
  /-- Line 517: "No DeckLink PCI cards found". -/
  | stderr_no_cards
  | QueryInterface_output
  | QueryInterface_configuration
  /-- Line 529: "Could not obtain the IDeckLinkConfiguration interface". -/
  | stderr_no_configuration (result : Int)
  /-- Lines 536-552: the two macros of the case of `connection`. -/
  | set_connection (connection : Int)
  /-- Lines 559-560. -/
  | set_callbacks
  | av_frame_alloc
  /-- Lines 564-566: `packet_queue_init` of the audio, video and data queue. -/
  | packet_queue_init_all
  /-- Line 568: `pthread_create(&th, NULL, fill_queues, NULL)`. -/
  | pthread_create_fill_queues
  | usleep (microseconds : Int)
  | GetDisplayModeByIndex (videomode : Int)
  | EnableVideoOutput
  /-- Line 651: "Failed to enable video output". -/
  | stderr_enable_video_failed
  | EnableAudioOutput (bits channels : Int)
  /-- Line 662: "Failed to enable audio output". -/
  | stderr_enable_audio_failed
  /-- Lines 667 and 677: one call `ScheduleNextFrame(true)`. -/
  | ScheduleNextFrame_preroll
  | BeginAudioPreroll
  /-- Line 672: "Failed to begin audio preroll". -/
  | stderr_preroll_failed
  | StartScheduledPlayback
  /-- Lines 574-576: the wait on `sleepCond`. -/
  | wait_sleepCond
  /-- Line 577: `fill_me = 0`. -/
  | clear_fill_me
  /-- Line 578: "Exiting, cleaning up". -/
  | stderr_exiting
  | packet_queue_end_audioqueue
  | packet_queue_end_videoqueue
  | StopRunning
  | release_output
  | release_deckLink
  | release_iterator
  deriving DecidableEq, Repr

/-- `Player::StartRunning`: the steps it takes and the value of `m_running`
when it returns (`m_running` is `false` on entry, line 469). -/
def StartRunning (env : InitEnv) (videomode : Int) : List InitStep × Bool :=
  if env.mode_found = false then
    ([InitStep.GetDisplayModeByIndex videomode], false)
  else if env.enable_video ≠ 0 then
    ([InitStep.GetDisplayModeByIndex videomode, InitStep.EnableVideoOutput,
      InitStep.stderr_enable_video_failed], false)
  else
    match env.audio with
    | some a =>
      if env.enable_audio ≠ 0 then
        ([InitStep.GetDisplayModeByIndex videomode, InitStep.EnableVideoOutput,
          InitStep.EnableAudioOutput a.exact_bits a.channels,
          InitStep.stderr_enable_audio_failed], false)
      else if env.begin_preroll ≠ 0 then
        ([InitStep.GetDisplayModeByIndex videomode, InitStep.EnableVideoOutput,
          InitStep.EnableAudioOutput a.exact_bits a.channels] ++
          List.replicate 10 InitStep.ScheduleNextFrame_preroll ++
          [InitStep.BeginAudioPreroll, InitStep.stderr_preroll_failed], false)
      else
        ([InitStep.GetDisplayModeByIndex videomode, InitStep.EnableVideoOutput,
          InitStep.EnableAudioOutput a.exact_bits a.channels] ++
          List.replicate 10 InitStep.ScheduleNextFrame_preroll ++
          [InitStep.BeginAudioPreroll], true)
    | none =>
      ([InitStep.GetDisplayModeByIndex videomode, InitStep.EnableVideoOutput] ++
        List.replicate 10 InitStep.ScheduleNextFrame_preroll ++
        [InitStep.StartScheduledPlayback], true)

/-- The block after the label `bail` of `Player::Init` (lines 582-599);
`haveOutput` and `haveDeckLink` tell whether `m_deckLinkOutput` and
`m_deckLink` are non-null there. -/
def bail (m_running haveOutput haveDeckLink iterator : Bool) : List InitStep :=
  (if m_running then [InitStep.StopRunning]
   else
    (if haveOutput then [InitStep.release_output] else []) ++
    (if haveDeckLink then [InitStep.release_deckLink] else [])) ++
  (if iterator then [InitStep.release_iterator] else [])

/-- What `Player::Init` did and the value it returned; `ret = none` means it
never returned, being suspended on `sleepCond`. -/
structure InitResult where
  steps : List InitStep
  ret : Option Bool
  deriving DecidableEq, Repr

/-- The audio checks of `Player::Init` (lines 486-510): the steps taken and
whether control goes to `bail`. -/
def audio_checks (audio : Option AudioCodec) : List InitStep × Bool :=
  match audio with
  | none => ([], false)
  | some a =>
    if a.channels = 2 ∨ a.channels = 8 ∨ a.channels = 16 then
      if a.exact_bits = 16 ∨ a.exact_bits = 32 then
        ([InitStep.av_get_exact_bits_per_sample], false)
      else
        ([InitStep.av_get_exact_bits_per_sample,
          InitStep.stderr_depth_unsupported a.exact_bits], false)
    else
      ([InitStep.av_get_exact_bits_per_sample,
        InitStep.stderr_channels_unsupported a.channels], true)

/-- `Player::Init`. -/
def Init (env : InitEnv) (videomode connection camera : Int) : InitResult :=
  if env.iterator = false then
    { steps := [InitStep.CreateDeckLinkIteratorInstance, InitStep.stderr_drivers_required] ++
        bail false env.stale_output env.stale_deckLink false
      ret := some true }
  else
    let checks := audio_checks env.audio
    let s1 := InitStep.CreateDeckLinkIteratorInstance :: checks.1
    if checks.2 then
      { steps := s1 ++ bail false env.stale_output env.stale_deckLink true, ret := some true }
    else
      let calls : Nat := if camera < 0 then 1 else camera.toNat + 1
      let result := env.next (calls - 1)
      let s2 := s1 ++ List.replicate calls InitStep.Next
      if result ≠ 0 then
        { steps := s2 ++ [InitStep.stderr_no_cards] ++
            bail false env.stale_output env.stale_deckLink true
          ret := some true }
      else if env.query_output ≠ 0 then
        { steps := s2 ++ [InitStep.QueryInterface_output] ++
            bail false env.stale_output true true
          ret := some true }
      else if env.query_configuration ≠ 0 then
        { steps := s2 ++
            [InitStep.QueryInterface_output, InitStep.QueryInterface_configuration,
             InitStep.stderr_no_configuration env.query_configuration] ++
            bail false true true true
          ret := some true }
      else
        let s3 := s2 ++ [InitStep.QueryInterface_output, InitStep.QueryInterface_configuration]
        let uses_macros : Bool := decide (1 ≤ connection ∧ connection ≤ 4)
        let s4 := s3 ++ (if uses_macros then [InitStep.set_connection connection] else [])
        if uses_macros && env.macros_bail then
          { steps := s4 ++ bail false true true true, ret := some true }
        else
          let started := StartRunning env videomode
          let s5 := s4 ++
            [InitStep.set_callbacks, InitStep.av_frame_alloc, InitStep.packet_queue_init_all,
             InitStep.pthread_create_fill_queues, InitStep.usleep env.buffer] ++
            started.1 ++ [InitStep.wait_sleepCond]
          if env.woken = false then
            { steps := s5, ret := none }
          else
            { steps := s5 ++
                [InitStep.clear_fill_me, InitStep.stderr_exiting,
                 InitStep.packet_queue_end_audioqueue, InitStep.packet_queue_end_videoqueue] ++
                bail started.2 true true true
              ret := some true }

/-- What `main` did from line 428 on and its return value; `exit = none` means
it never returned. -/
structure MainResult where
  steps : List InitStep
  exit : Option Int
  deriving DecidableEq, Repr

/-- Lines 428-464 of `main`, after the streams were opened: `video_st_present`
tells whether `video.st` is non-null.  `ret = generator.Init(...)` converts the
`bool` to `int`. -/
def main (video_st_present : Bool) (env : InitEnv) (videomode connection camera : Int) :
    MainResult :=
  let s0 : List InitStep := if env.audio.isNone then [InitStep.log_no_audio] else []
  if video_st_present = false then
    { steps := s0 ++ [InitStep.log_no_video], exit := some 1 }
  else
    let r := Init env videomode connection camera
    match r.ret with
    | none => { steps := s0 ++ [InitStep.prepare_playback] ++ r.steps, exit := none }
    | some b =>
      { steps := s0 ++ [InitStep.prepare_playback] ++ r.steps ++
          [InitStep.avformat_close_input, InitStep.stderr_queue_counts]
        exit := some (if b then 1 else 0) }

/-- A start-up in which every device call succeeds and `sleepCond` is
signalled, for the given audio stream. -/
def healthy_env (audio : Option AudioCodec) : InitEnv :=
  { iterator := true
    stale_output := false
    stale_deckLink := false
    audio := audio
    next := fun _ => 0
    query_output := 0
    query_configuration := 0
    macros_bail := false
    buffer := 2000 * 1000
    mode_found := true
    enable_video := 0
    enable_audio := 0
    begin_preroll := 0
    woken := true }

/-! ## Arithmetic lemmas -/

theorem wrapInt32_of_range (x : Int) (h1 : -(2 ^ 31) ≤ x) (h2 : x < 2 ^ 31) :
    wrapInt32 x = x := by
  unfold wrapInt32; omega

theorem wrapInt64_of_range (x : Int) (h1 : -(2 ^ 63) ≤ x) (h2 : x < 2 ^ 63) :
    wrapInt64 x = x := by
  unfold wrapInt64; omega

theorem wrapInt32_add_left (a b : Int) : wrapInt32 (wrapInt32 a + b) = wrapInt32 (a + b) := by
  unfold wrapInt32; omega

theorem wrapInt32_sub_left (a b : Int) : wrapInt32 (wrapInt32 a - b) = wrapInt32 (a - b) := by
  unfold wrapInt32; omega

/-! ## Lemmas on the queue -/

theorem get_cons (sz : Nat) (q : PacketQueue) (pkt : AVPacket) (block : Int)
    (wk : List PacketQueue) (p : AVPacket) (rest : List AVPacket)
    (h : q.first_pkt = p :: rest) :
    packet_queue_get sz q pkt block wk =
      { q := { q with
                first_pkt := rest
                nb_packets := (q.nb_packets + 2 ^ 64 - 1) % 2 ^ 64
                size := wrapInt32 (q.size - (p.size + sz)) }
        pkt := p
        ret := some 1
        waits := 0
        diag := if (q.nb_packets + 2 ^ 64 - 1) % 2 ^ 64 > 5000
                then some ((q.nb_packets + 2 ^ 64 - 1) % 2 ^ 64) else none } := by
  cases wk <;> simp [packet_queue_get, packet_queue_get_pass, h]

theorem get_nil_nonblocking (sz : Nat) (q : PacketQueue) (pkt : AVPacket)
    (wk : List PacketQueue) (h : q.first_pkt = []) :
    packet_queue_get sz q pkt 0 wk =
      { q := q, pkt := pkt, ret := some 0, waits := 0, diag := none } := by
  cases wk <;> simp [packet_queue_get, packet_queue_get_pass, h]

theorem put_all_first_pkt (sz : Nat) (ps : List AVPacket) (q : PacketQueue) :
    (put_all sz q ps).first_pkt = q.first_pkt ++ ps := by
  induction ps generalizing q with
  | nil => simp [put_all]
  | cons p ps ih => simp [put_all, ih, packet_queue_put]

theorem get_all_of_first_pkt (sz : Nat) (ps : List AVPacket) :
    ∀ (q : PacketQueue) (pkt : AVPacket) (calls : List (Int × List PacketQueue)),
      q.first_pkt = ps → calls.length = ps.length →
      (get_all sz q pkt calls).2 = ps.map (fun p => (some 1, p)) ∧
      (get_all sz q pkt calls).1.first_pkt = [] := by
  induction ps with
  | nil =>
    intro q pkt calls hq hlen
    have : calls = [] := List.length_eq_zero.mp (by simpa using hlen)
    subst this
    simp [get_all, hq]
  | cons p ps ih =>
    intro q pkt calls hq hlen
    cases calls with
    | nil => simp at hlen
    | cons c rest =>
      obtain ⟨block, wk⟩ := c
      have hlen' : rest.length = ps.length := by simpa using hlen
      have hget := get_cons sz q pkt block wk p ps hq
      have := ih (packet_queue_get sz q pkt block wk).q (packet_queue_get sz q pkt block wk).pkt
        rest (by rw [hget]) hlen'
      simp only [get_all, List.map_cons]
      refine ⟨?_, this.2⟩
      rw [this.1, hget]

theorem counters_put (sz : Nat) (q : PacketQueue) (pkt : AVPacket) (alloc : Bool)
    (hnb : q.nb_packets = q.first_pkt.length % 2 ^ 64)
    (hsize : q.size = wrapInt32 (queued_bytes sz q.first_pkt)) :
    (packet_queue_put sz q pkt alloc).q.nb_packets =
        (packet_queue_put sz q pkt alloc).q.first_pkt.length % 2 ^ 64 ∧
      (packet_queue_put sz q pkt alloc).q.size =
        wrapInt32 (queued_bytes sz (packet_queue_put sz q pkt alloc).q.first_pkt) := by
  cases alloc with
  | false => simpa [packet_queue_put] using ⟨hnb, hsize⟩
  | true =>
    have hq : (packet_queue_put sz q pkt true).q =
        { q with
          first_pkt := q.first_pkt ++ [pkt]
          nb_packets := (q.nb_packets + 1) % 2 ^ 64
          size := wrapInt32 (q.size + (pkt.size + sz)) } := by
      simp [packet_queue_put]
    rw [hq]
    simp only [queued_bytes, List.length_append, List.length_singleton,
      List.map_append, List.sum_append, List.map_cons, List.map_nil, List.sum_cons,
      List.sum_nil, add_zero]
    refine ⟨?_, ?_⟩
    · simp [hnb, Nat.add_mod]
    · simp only [hsize, queued_bytes]
      exact wrapInt32_add_left _ _

theorem counters_get (sz : Nat) (q : PacketQueue) (pkt : AVPacket) (block : Int)
    (hnb : q.nb_packets = q.first_pkt.length % 2 ^ 64)
    (hsize : q.size = wrapInt32 (queued_bytes sz q.first_pkt)) :
    (packet_queue_get sz q pkt block []).q.nb_packets =
        (packet_queue_get sz q pkt block []).q.first_pkt.length % 2 ^ 64 ∧
      (packet_queue_get sz q pkt block []).q.size =
        wrapInt32 (queued_bytes sz (packet_queue_get sz q pkt block []).q.first_pkt) := by
  cases hq : q.first_pkt with
  | nil =>
    have hq' : (packet_queue_get sz q pkt block []).q = q := by
      simp only [packet_queue_get, packet_queue_get_pass, hq]
      split_ifs <;> rfl
    rw [hq']
    exact ⟨hnb, hsize⟩
  | cons p rest =>
    rw [get_cons sz q pkt block [] p rest hq]
    rw [hq] at hnb hsize
    simp only [queued_bytes, List.map_cons, List.sum_cons, List.length_cons] at hnb hsize ⊢
    refine ⟨?_, ?_⟩
    · rw [hnb]; omega
    · rw [hsize, wrapInt32_sub_left]
      congr 1
      ring

theorem counters_run_ops (sz : Nat) (ops : List QueueOp) :
    ∀ q : PacketQueue, q.nb_packets = q.first_pkt.length % 2 ^ 64 →
      q.size = wrapInt32 (queued_bytes sz q.first_pkt) →
      (run_ops sz q ops).nb_packets = (run_ops sz q ops).first_pkt.length % 2 ^ 64 ∧
        (run_ops sz q ops).size = wrapInt32 (queued_bytes sz (run_ops sz q ops).first_pkt) := by
  induction ops with
  | nil => intro q h1 h2; exact ⟨h1, h2⟩
  | cons op ops ih =>
    intro q h1 h2
    have step : (QueueOp.apply sz q op).nb_packets =
          (QueueOp.apply sz q op).first_pkt.length % 2 ^ 64 ∧
        (QueueOp.apply sz q op).size =
          wrapInt32 (queued_bytes sz (QueueOp.apply sz q op).first_pkt) := by
      cases op with
      | put pkt alloc => exact counters_put sz q pkt alloc h1 h2
      | get pkt block => exact counters_get sz q pkt block h1 h2
      | flush => simp [QueueOp.apply, packet_queue_flush, queued_bytes, wrapInt32]
      | endq =>
        simp [QueueOp.apply, packet_queue_end, packet_queue_flush, queued_bytes, wrapInt32]
    simpa [run_ops] using ih _ step.1 step.2

theorem length_apply_le (sz : Nat) (q : PacketQueue) (op : QueueOp) :
    (QueueOp.apply sz q op).first_pkt.length ≤ q.first_pkt.length + 1 := by
  cases op with
  | put pkt alloc => cases alloc <;> simp [QueueOp.apply, packet_queue_put]
  | get pkt block =>
    cases hq : q.first_pkt with
    | nil =>
      have hq' : (packet_queue_get sz q pkt block []).q = q := by
        simp only [packet_queue_get, packet_queue_get_pass, hq]
        split_ifs <;> rfl
      simp [QueueOp.apply, hq', hq]
    | cons p rest =>
      simp [QueueOp.apply, get_cons sz q pkt block [] p rest hq]
      omega
  | flush => simp [QueueOp.apply, packet_queue_flush]
  | endq => simp [QueueOp.apply, packet_queue_end, packet_queue_flush]

theorem length_run_ops_le (sz : Nat) (ops : List QueueOp) :
    ∀ q : PacketQueue, (run_ops sz q ops).first_pkt.length ≤ q.first_pkt.length + ops.length := by
  induction ops with
  | nil => intro q; simp [run_ops]
  | cons op ops ih =>
    intro q
    have h1 := ih (QueueOp.apply sz q op)
    have h2 := length_apply_le sz q op
    simp only [run_ops, List.foldl_cons, List.length_cons] at h1 ⊢
    omega

/-! ## The claims on the packet queue -/

/-- C1 (FIFO): on a queue that holds no element, `packet_queue_put` of
`P1..Pn` (each allocation succeeding, each call returning 0) followed by `n`
calls of `packet_queue_get`, blocking or not and whatever the wake-ups would
be, returns 1 each time and delivers `P1..Pn` in that order; a further
non-blocking get returns 0. -/
theorem C1_queue_fifo (sz : Nat) (q0 : PacketQueue) (ps : List AVPacket)
    (pkt pkt' : AVPacket) (calls : List (Int × List PacketQueue)) (wk : List PacketQueue)
    (hempty : q0.first_pkt = []) (hlen : calls.length = ps.length) :
    (∀ (q : PacketQueue) (p : AVPacket), (packet_queue_put sz q p true).ret = 0) ∧
    (get_all sz (put_all sz q0 ps) pkt calls).2 = ps.map (fun p => (some 1, p)) ∧
    (packet_queue_get sz (get_all sz (put_all sz q0 ps) pkt calls).1 pkt' 0 wk).ret =
      some 0 := by
  have hq : (put_all sz q0 ps).first_pkt = ps := by
    rw [put_all_first_pkt, hempty, List.nil_append]
  have h := get_all_of_first_pkt sz ps (put_all sz q0 ps) pkt calls hq hlen
  refine ⟨fun q p => by simp [packet_queue_put], h.1, ?_⟩
  rw [get_nil_nonblocking sz _ pkt' wk h.2]

/-- Witness of C1: two packets put on a fresh queue, fetched by one
non-blocking and one blocking get. -/
theorem C1_queue_fifo_witness :
    (get_all 104 (put_all 104 packet_queue_init
        [{ pts := 1, duration := 0, data := [7], size := 1, stream_index := 0 },
         { pts := 2, duration := 0, data := [8, 9], size := 2, stream_index := 0 }])
        AVPacket.zero [(0, []), (1, [])]).2 =
      [(some 1, { pts := 1, duration := 0, data := [7], size := 1, stream_index := 0 }),
       (some 1, { pts := 2, duration := 0, data := [8, 9], size := 2, stream_index := 0 })] ∧
    (packet_queue_get 104 (get_all 104 (put_all 104 packet_queue_init
        [{ pts := 1, duration := 0, data := [7], size := 1, stream_index := 0 },
         { pts := 2, duration := 0, data := [8, 9], size := 2, stream_index := 0 }])
        AVPacket.zero [(0, []), (1, [])]).1 AVPacket.zero 0 []).ret = some 0 :=
  (C1_queue_fifo 104 packet_queue_init
    [{ pts := 1, duration := 0, data := [7], size := 1, stream_index := 0 },
     { pts := 2, duration := 0, data := [8, 9], size := 2, stream_index := 0 }]
    AVPacket.zero AVPacket.zero [(0, []), (1, [])] [] rfl rfl).2

/-- C2 (counters): after `packet_queue_init` and any sequence of put, get,
flush and end calls (fewer than 2^64 of them), `nb_packets` is the number of
queued cells, `size` is the sum of payload size plus cell overhead over the
queued cells reduced to the width of `int`; so `size` is 0 on an empty queue,
and right after `packet_queue_flush` both counters are 0. -/
theorem C2_counter_invariant (sz : Nat) (ops : List QueueOp) (hlen : ops.length < 2 ^ 64) :
    (run_ops sz packet_queue_init ops).nb_packets =
      (run_ops sz packet_queue_init ops).first_pkt.length ∧
    (run_ops sz packet_queue_init ops).size =
      wrapInt32 (queued_bytes sz (run_ops sz packet_queue_init ops).first_pkt) ∧
    ((run_ops sz packet_queue_init ops).first_pkt = [] →
      (run_ops sz packet_queue_init ops).size = 0) ∧
    (run_ops sz packet_queue_init (ops ++ [QueueOp.flush])).nb_packets = 0 ∧
    (run_ops sz packet_queue_init (ops ++ [QueueOp.flush])).size = 0 ∧
    (run_ops sz packet_queue_init (ops ++ [QueueOp.flush])).first_pkt = [] := by
  have inv := counters_run_ops sz ops packet_queue_init
    (by simp [packet_queue_init]) (by simp [packet_queue_init, queued_bytes, wrapInt32])
  have hle := length_run_ops_le sz ops packet_queue_init
  have hlt : (run_ops sz packet_queue_init ops).first_pkt.length < 2 ^ 64 := by
    have h0 : packet_queue_init.first_pkt.length = 0 := rfl
    omega
  refine ⟨?_, inv.2, ?_, ?_, ?_, ?_⟩
  · rw [inv.1, Nat.mod_eq_of_lt hlt]
  · intro h
    rw [inv.2, h]
    simp [queued_bytes, wrapInt32]
  · simp [run_ops, QueueOp.apply, packet_queue_flush]
  · simp [run_ops, QueueOp.apply, packet_queue_flush]
  · simp [run_ops, QueueOp.apply, packet_queue_flush]

/-- Witness of C2: two puts, one get, one failed put. -/
theorem C2_counter_invariant_witness :
    (run_ops 104 packet_queue_init
      [QueueOp.put { pts := 1, duration := 0, data := [7], size := 1, stream_index := 0 } true,
       QueueOp.put { pts := 2, duration := 0, data := [8, 9], size := 2, stream_index := 0 } true,
       QueueOp.get AVPacket.zero 0,
       QueueOp.put AVPacket.zero false]).nb_packets = 1 ∧
    (run_ops 104 packet_queue_init
      [QueueOp.put { pts := 1, duration := 0, data := [7], size := 1, stream_index := 0 } true,
       QueueOp.put { pts := 2, duration := 0, data := [8, 9], size := 2, stream_index := 0 } true,
       QueueOp.get AVPacket.zero 0,
       QueueOp.put AVPacket.zero false]).size = 106 := by
  have h := C2_counter_invariant 104
    [QueueOp.put { pts := 1, duration := 0, data := [7], size := 1, stream_index := 0 } true,
     QueueOp.put { pts := 2, duration := 0, data := [8, 9], size := 2, stream_index := 0 } true,
     QueueOp.get AVPacket.zero 0,
     QueueOp.put AVPacket.zero false] (by decide)
  refine ⟨h.1.trans (by decide), h.2.1.trans (by decide)⟩

/-- C3 (abort): on a queue with `abort_request` set and no element, a blocking
`packet_queue_get` returns -1 without entering `pthread_cond_wait`, whatever
the wake-ups would be, and leaves the queue and `*pkt` as they were. -/
theorem C3_get_aborted (sz : Nat) (q : PacketQueue) (pkt : AVPacket) (block : Int)
    (wk : List PacketQueue) (habort : q.abort_request ≠ 0) (hempty : q.first_pkt = [])
    (hblock : block ≠ 0) :
    packet_queue_get sz q pkt block wk =
      { q := q, pkt := pkt, ret := some (-1), waits := 0, diag := none } := by
  cases wk <;> simp [packet_queue_get, packet_queue_get_pass, hempty, hblock, habort]

/-- Witness of C3: a queue that was ended right after its initialisation, with
no put ever performed. -/
theorem C3_get_aborted_witness :
    packet_queue_get 104 (packet_queue_end packet_queue_init) AVPacket.zero 1 [] =
      { q := packet_queue_end packet_queue_init, pkt := AVPacket.zero, ret := some (-1),
        waits := 0, diag := none } :=
  C3_get_aborted 104 (packet_queue_end packet_queue_init) AVPacket.zero 1 []
    (by decide) rfl (by decide)

/-! ## Lemmas on the producer -/

theorem body_keeps_origins (cfg : Config) (w : World) (once : Int) (pkt : AVPacket)
    (alloc : Bool) (h : ¬ timestamped_av cfg pkt ∨ w.first_pts ≠ AV_NOPTS_VALUE) :
    ∃ w' once', fill_queues_body cfg w once pkt alloc = some (w', once') ∧
      same_origins w w' := by
  unfold timestamped_av at h
  unfold fill_queues_body same_origins
  cases hs : cfg.streams pkt.stream_index <;> simp only [hs] at h ⊢ <;>
    by_cases hp : pkt.pts = AV_NOPTS_VALUE <;> by_cases hf : w.first_pts = AV_NOPTS_VALUE <;>
    simp_all

theorem shift_pts_exact (origin : Int) (pkt : AVPacket)
    (h1 : -(2 ^ 63) ≤ pkt.pts - origin) (h2 : pkt.pts - origin < 2 ^ 63) :
    (shift_pts origin pkt).pts = pkt.pts - origin :=
  wrapInt64_of_range _ h1 h2

theorem body_establishes (cfg : Config) (w : World) (once : Int) (pkt : AVPacket)
    (alloc : Bool) (hts : timestamped_av cfg pkt) (hunset : w.first_pts = AV_NOPTS_VALUE)
    (hst : cfg.streams pkt.stream_index = AVMEDIA_TYPE_VIDEO ∨ cfg.audio_st ≠ none) :
    ∃ w' once', fill_queues_body cfg w once pkt alloc = some (w', once') ∧
      w'.first_pts = pkt.pts := by
  unfold timestamped_av at hts
  obtain ⟨hp, hkind⟩ := hts
  unfold fill_queues_body
  rcases hkind with hv | ha
  · simp [hv, hp, hunset]
  · rcases hst with hv | hst
    · rw [hv] at ha; cases ha
    · cases hau : cfg.audio_st with
      | none => exact absurd hau hst
      | some atb => simp [ha, hp, hunset]

theorem iterate_keeps_origins (cfg : Config) (pkts : List (AVPacket × Bool)) :
    ∀ (w : World) (once : Int),
      (∀ x ∈ pkts, ¬ timestamped_av cfg x.1) ∨ w.first_pts ≠ AV_NOPTS_VALUE →
      ∃ w' once', fill_queues_iterate cfg w once pkts = some (w', once') ∧
        same_origins w w' := by
  induction pkts with
  | nil => intro w once _; exact ⟨w, once, rfl, rfl, rfl, rfl⟩
  | cons x rest ih =>
    intro w once h
    obtain ⟨pkt, alloc⟩ := x
    have hstep : ¬ timestamped_av cfg pkt ∨ w.first_pts ≠ AV_NOPTS_VALUE := by
      rcases h with h | h
      · exact Or.inl (h (pkt, alloc) (List.mem_cons_self _ _))
      · exact Or.inr h
    obtain ⟨w1, o1, hbody, h1⟩ := body_keeps_origins cfg w once pkt alloc hstep
    have hrest : (∀ x ∈ rest, ¬ timestamped_av cfg x.1) ∨ w1.first_pts ≠ AV_NOPTS_VALUE := by
      rcases h with h | h
      · exact Or.inl (fun x hx => h x (List.mem_cons_of_mem _ hx))
      · exact Or.inr (by rw [h1.1]; exact h)
    obtain ⟨w2, o2, hiter, h2⟩ := ih w1 o1 hrest
    refine ⟨w2, o2, ?_, ?_⟩
    · simp [fill_queues_iterate, hbody, hiter]
    · exact ⟨h2.1.trans h1.1, h2.2.1.trans h1.2.1, h2.2.2.trans h1.2.2⟩

theorem iterate_append (cfg : Config) (l : List (AVPacket × Bool)) :
    ∀ (w : World) (o : Int) (w' : World) (o' : Int) (l' : List (AVPacket × Bool)),
      fill_queues_iterate cfg w o l = some (w', o') →
      fill_queues_iterate cfg w o (l ++ l') = fill_queues_iterate cfg w' o' l' := by
  induction l with
  | nil => intro w o w' o' l' h; simp [fill_queues_iterate] at h; rw [h.1, h.2]; rfl
  | cons x l ih =>
    intro w o w' o' l' h
    obtain ⟨p, a⟩ := x
    simp only [fill_queues_iterate, List.cons_append] at h ⊢
    cases hb : fill_queues_body cfg w o p a with
    | none => rw [hb] at h; cases h
    | some r =>
      obtain ⟨wr, o_r⟩ := r
      rw [hb] at h
      simp only at h ⊢
      exact ih wr o_r w' o' l' h

theorem body_video_known (cfg : Config) (w : World) (once : Int) (pkt : AVPacket)
    (hv : cfg.streams pkt.stream_index = AVMEDIA_TYPE_VIDEO) (hp : pkt.pts ≠ AV_NOPTS_VALUE) :
    ∃ w' once', fill_queues_body cfg w once pkt true = some (w', once') ∧
      w'.fill_me = w.fill_me ∧ w'.first_pts ≠ AV_NOPTS_VALUE ∧
      w'.first_video_pts =
        (if w.first_pts = AV_NOPTS_VALUE then pkt.pts else w.first_video_pts) ∧
      w'.videoqueue.first_pkt =
        w.videoqueue.first_pkt ++ [shift_pts w'.first_video_pts pkt] := by
  unfold fill_queues_body
  by_cases hf : w.first_pts = AV_NOPTS_VALUE <;>
    simp [hv, hp, hf, packet_queue_put, shift_pts]

theorem body_not_av (cfg : Config) (w : World) (once : Int) (pkt : AVPacket) (alloc : Bool)
    (hv : cfg.streams pkt.stream_index ≠ AVMEDIA_TYPE_VIDEO)
    (ha : cfg.streams pkt.stream_index ≠ AVMEDIA_TYPE_AUDIO) :
    ∃ w' once', fill_queues_body cfg w once pkt alloc = some (w', once') ∧
      w'.fill_me = w.fill_me ∧ w'.first_pts = w.first_pts ∧
      w'.first_video_pts = w.first_video_pts ∧ w'.videoqueue = w.videoqueue := by
  unfold fill_queues_body
  cases hs : cfg.streams pkt.stream_index <;> simp_all

theorem loop_after_origin (cfg : Config) (src : List AVPacket) :
    ∀ (w : World) (once : Int), w.fill_me ≠ 0 → w.first_pts ≠ AV_NOPTS_VALUE →
      (∀ p ∈ src, cfg.streams p.stream_index ≠ AVMEDIA_TYPE_AUDIO) →
      (∀ p ∈ src, cfg.streams p.stream_index = AVMEDIA_TYPE_VIDEO → p.pts ≠ AV_NOPTS_VALUE) →
      ∃ w', fill_queues_loop cfg w once (src.map (fun p => (p, true))) = some w' ∧
        w'.first_video_pts = w.first_video_pts ∧
        w'.videoqueue.first_pkt =
          w.videoqueue.first_pkt ++
            (src.filter (is_video cfg)).map (shift_pts w.first_video_pts) := by
  induction src with
  | nil =>
    intro w once hfill _ _ _
    exact ⟨{ w with trace := w.trace ++ [Event.signal_sleepCond] },
      by simp [fill_queues_loop, hfill], rfl, by simp⟩
  | cons p rest ih =>
    intro w once hfill hset hna hknown
    have hna' : ∀ q ∈ rest, cfg.streams q.stream_index ≠ AVMEDIA_TYPE_AUDIO :=
      fun q hq => hna q (List.mem_cons_of_mem _ hq)
    have hknown' : ∀ q ∈ rest, cfg.streams q.stream_index = AVMEDIA_TYPE_VIDEO →
        q.pts ≠ AV_NOPTS_VALUE := fun q hq => hknown q (List.mem_cons_of_mem _ hq)
    by_cases hv : cfg.streams p.stream_index = AVMEDIA_TYPE_VIDEO
    · obtain ⟨w1, o1, hb, hf1, hs1, hfv, hq1⟩ :=
        body_video_known cfg w once p hv (hknown p (List.mem_cons_self _ _) hv)
      rw [if_neg hset] at hfv
      obtain ⟨w2, hl, hfv2, hq2⟩ := ih w1 o1 (by rw [hf1]; exact hfill) hs1 hna' hknown'
      refine ⟨w2, ?_, hfv2.trans hfv, ?_⟩
      · simp [fill_queues_loop, hfill, hb, hl]
      · rw [hq2, hq1, hfv]
        simp [is_video, hv]
    · obtain ⟨w1, o1, hb, hf1, hs1, hfv, hq1⟩ :=
        body_not_av cfg w once p true hv (hna p (List.mem_cons_self _ _))
      obtain ⟨w2, hl, hfv2, hq2⟩ :=
        ih w1 o1 (by rw [hf1]; exact hfill) (by rw [hs1]; exact hset) hna' hknown'
      refine ⟨w2, ?_, hfv2.trans hfv, ?_⟩
      · simp [fill_queues_loop, hfill, hb, hl]
      · rw [hq2, hq1, hfv]
        simp [is_video, hv]

theorem loop_before_origin (cfg : Config) (src : List AVPacket) :
    ∀ (w : World) (once : Int), w.fill_me ≠ 0 → w.first_pts = AV_NOPTS_VALUE →
      (∀ p ∈ src, cfg.streams p.stream_index ≠ AVMEDIA_TYPE_AUDIO) →
      (∀ p ∈ src, cfg.streams p.stream_index = AVMEDIA_TYPE_VIDEO → p.pts ≠ AV_NOPTS_VALUE) →
      ∃ w', fill_queues_loop cfg w once (src.map (fun p => (p, true))) = some w' ∧
        w'.videoqueue.first_pkt =
          w.videoqueue.first_pkt ++
            (src.filter (is_video cfg)).map
              (shift_pts (head_pts (src.filter (is_video cfg)))) := by
  induction src with
  | nil =>
    intro w once hfill _ _ _
    exact ⟨{ w with trace := w.trace ++ [Event.signal_sleepCond] },
      by simp [fill_queues_loop, hfill], by simp⟩
  | cons p rest ih =>
    intro w once hfill hunset hna hknown
    have hna' : ∀ q ∈ rest, cfg.streams q.stream_index ≠ AVMEDIA_TYPE_AUDIO :=
      fun q hq => hna q (List.mem_cons_of_mem _ hq)
    have hknown' : ∀ q ∈ rest, cfg.streams q.stream_index = AVMEDIA_TYPE_VIDEO →
        q.pts ≠ AV_NOPTS_VALUE := fun q hq => hknown q (List.mem_cons_of_mem _ hq)
    by_cases hv : cfg.streams p.stream_index = AVMEDIA_TYPE_VIDEO
    · obtain ⟨w1, o1, hb, hf1, hs1, hfv, hq1⟩ :=
        body_video_known cfg w once p hv (hknown p (List.mem_cons_self _ _) hv)
      rw [if_pos hunset] at hfv
      obtain ⟨w2, hl, _, hq2⟩ :=
        loop_after_origin cfg rest w1 o1 (by rw [hf1]; exact hfill) hs1 hna' hknown'
      refine ⟨w2, ?_, ?_⟩
      · simp [fill_queues_loop, hfill, hb, hl]
      · rw [hq2, hq1, hfv]
        simp [is_video, hv, head_pts]
    · obtain ⟨w1, o1, hb, hf1, hs1, _, hq1⟩ :=
        body_not_av cfg w once p true hv (hna p (List.mem_cons_self _ _))
      obtain ⟨w2, hl, hq2⟩ :=
        ih w1 o1 (by rw [hf1]; exact hfill) (by rw [hs1]; exact hunset) hna' hknown'
      refine ⟨w2, ?_, ?_⟩
      · simp [fill_queues_loop, hfill, hb, hl]
      · rw [hq2, hq1]
        simp [is_video, hv]

/-! ## The claims on the producer -/

/-- Where the iteration that meets the first timestamped packet does not read
through a null `audio.st`: from a state with `first_pts` unset, iterating the
loop body of `fill_queues` over packets none of which is an audio or video
packet with a known timestamp leaves `first_pts`, `first_video_pts` and
`first_audio_pts` as they were; the next packet, an audio or video packet with
a known timestamp, sets `first_pts` to its original timestamp; whatever packets
follow, all three origins keep the values they have after that iteration. -/
theorem first_pts_set_once (cfg : Config) (w0 : World) (once : Int)
    (pre post : List (AVPacket × Bool)) (pkt : AVPacket) (alloc : Bool)
    (hunset : w0.first_pts = AV_NOPTS_VALUE)
    (hpre : ∀ x ∈ pre, ¬ timestamped_av cfg x.1)
    (hpkt : timestamped_av cfg pkt)
    (hst : cfg.streams pkt.stream_index = AVMEDIA_TYPE_VIDEO ∨ cfg.audio_st ≠ none) :
    ∃ w1 o1 w2 o2 w3 o3,
      fill_queues_iterate cfg w0 once pre = some (w1, o1) ∧
      w1.first_pts = AV_NOPTS_VALUE ∧ same_origins w0 w1 ∧
      fill_queues_body cfg w1 o1 pkt alloc = some (w2, o2) ∧
      w2.first_pts = pkt.pts ∧ w2.first_pts ≠ AV_NOPTS_VALUE ∧
      fill_queues_iterate cfg w2 o2 post = some (w3, o3) ∧ same_origins w2 w3 ∧
      fill_queues_iterate cfg w0 once (pre ++ (pkt, alloc) :: post) = some (w3, o3) := by
  obtain ⟨w1, o1, h1, hs1⟩ := iterate_keeps_origins cfg pre w0 once (Or.inl hpre)
  have hu1 : w1.first_pts = AV_NOPTS_VALUE := hs1.1.trans hunset
  obtain ⟨w2, o2, h2, hs2⟩ := body_establishes cfg w1 o1 pkt alloc hpkt hu1 hst
  have hset : w2.first_pts ≠ AV_NOPTS_VALUE := by rw [hs2]; exact hpkt.1
  obtain ⟨w3, o3, h3, hs3⟩ := iterate_keeps_origins cfg post w2 o2 (Or.inr hset)
  refine ⟨w1, o1, w2, o2, w3, o3, h1, hu1, hs1, h2, hs2, hset, h3, hs3, ?_⟩
  rw [iterate_append cfg pre w0 once w1 o1 _ h1]
  simp [fill_queues_iterate, h2, h3]

/-- An instance of `first_pts_set_once`: a data packet and an untimestamped
video packet, then the video packet with timestamp 1000, then a video and an
audio packet. -/
theorem first_pts_set_once_example :
    ∃ w1 o1 w2 o2 w3 o3,
      fill_queues_iterate av_serial_cfg World.initial 0
        [(mk_packet 2 7 [65], true), (mk_packet 0 AV_NOPTS_VALUE [], true)] = some (w1, o1) ∧
      w1.first_pts = AV_NOPTS_VALUE ∧ same_origins World.initial w1 ∧
      fill_queues_body av_serial_cfg w1 o1 (mk_packet 0 1000 []) true = some (w2, o2) ∧
      w2.first_pts = (mk_packet 0 1000 []).pts ∧ w2.first_pts ≠ AV_NOPTS_VALUE ∧
      fill_queues_iterate av_serial_cfg w2 o2
        [(mk_packet 0 1033 [], true), (mk_packet 1 5 [], true)] = some (w3, o3) ∧
      same_origins w2 w3 ∧
      fill_queues_iterate av_serial_cfg World.initial 0
        ([(mk_packet 2 7 [65], true), (mk_packet 0 AV_NOPTS_VALUE [], true)] ++
          (mk_packet 0 1000 [], true) ::
            [(mk_packet 0 1033 [], true), (mk_packet 1 5 [], true)]) = some (w3, o3) :=
  first_pts_set_once av_serial_cfg World.initial 0
    [(mk_packet 2 7 [65], true), (mk_packet 0 AV_NOPTS_VALUE [], true)]
    [(mk_packet 0 1033 [], true), (mk_packet 1 5 [], true)] (mk_packet 0 1000 []) true
    rfl
    (by simp [timestamped_av, mk_packet, av_serial_cfg])
    (by simp [timestamped_av, mk_packet, av_serial_cfg, AV_NOPTS_VALUE])
    (Or.inl rfl)

/-- C4 (failing input): no decoder was found for the audio stream, so
`audio.st` is null, and the first packet read is an audio packet with the known
timestamp 480.  `first_pts` is unset, so the audio case evaluates
`audio.st->time_base` (line 234) through the null pointer: the iteration has no
result, and neither has `fill_queues` however the source goes on.  The video
case guards the same access with `if (audio.st)` (line 219). -/
theorem C4_null_audio_st_dereferenced :
    undecoded_audio_cfg.audio_st = none ∧
    timestamped_av undecoded_audio_cfg (mk_packet 1 480 []) ∧
    World.initial.first_pts = AV_NOPTS_VALUE ∧
    fill_queues_body undecoded_audio_cfg World.initial 0 (mk_packet 1 480 []) true = none ∧
    fill_queues undecoded_audio_cfg World.initial
      [(mk_packet 1 480 [], true), (mk_packet 0 1000 [], true)] = none := by
  decide

/-- C5 (video-only origin shift): with the producer running (`fill_me` set)
and `first_pts` unset, a source without audio packets whose video packets all
have known timestamps `t1, ..., tn` makes `fill_queues` return after appending
to the video queue exactly those `n` packets, in read order, the timestamp of
each reduced by `t1` (in `int64_t`); the first one has timestamp 0. -/
theorem C5_video_only_shift (cfg : Config) (w0 : World) (src : List AVPacket)
    (hfill : w0.fill_me ≠ 0) (hunset : w0.first_pts = AV_NOPTS_VALUE)
    (hnoaudio : ∀ p ∈ src, cfg.streams p.stream_index ≠ AVMEDIA_TYPE_AUDIO)
    (hknown : ∀ p ∈ src, cfg.streams p.stream_index = AVMEDIA_TYPE_VIDEO →
      p.pts ≠ AV_NOPTS_VALUE) :
    ∃ w', fill_queues cfg w0 (src.map (fun p => (p, true))) = some w' ∧
      w'.videoqueue.first_pkt =
        w0.videoqueue.first_pkt ++
          (src.filter (is_video cfg)).map
            (shift_pts (head_pts (src.filter (is_video cfg)))) ∧
      (∀ p ∈ ((src.filter (is_video cfg)).map
            (shift_pts (head_pts (src.filter (is_video cfg))))).head?, p.pts = 0) := by
  obtain ⟨w', h, hq⟩ := loop_before_origin cfg src w0 0 hfill hunset hnoaudio hknown
  refine ⟨w', h, hq, ?_⟩
  intro p hp
  cases hl : src.filter (is_video cfg) with
  | nil => rw [hl] at hp; simp at hp
  | cons a rest =>
    rw [hl] at hp
    simp only [List.map_cons, List.head?_cons, Option.mem_def, Option.some.injEq, head_pts] at hp
    rw [← hp]
    simp [shift_pts, wrapInt64]

/-- Witness of C5: thirty video packets with timestamps 1000, 1033, ... and no
audio stream; the first queued timestamp is 0, the second 33. -/
theorem C5_video_only_shift_witness :
    ∃ w', fill_queues video_only_cfg World.initial
        (thirty_video_packets.map (fun p => (p, true))) = some w' ∧
      w'.videoqueue.first_pkt.length = 30 ∧
      (w'.videoqueue.first_pkt.map (fun p => p.pts)).take 2 = [0, 33] := by
  obtain ⟨w', h, hq, _⟩ := C5_video_only_shift video_only_cfg World.initial
    thirty_video_packets (by decide) rfl
    (by intro p _; simp only [video_only_cfg]; split_ifs <;> simp)
    (by
      intro p hp _
      simp only [thirty_video_packets, List.mem_map, List.mem_range] at hp
      obtain ⟨i, _, rfl⟩ := hp
      simp only [mk_packet, AV_NOPTS_VALUE]
      omega)
  refine ⟨w', h, ?_, ?_⟩
  · rw [hq]; decide
  · rw [hq]; decide

/-- C6 (unknown timestamp): for every state, an audio or video packet whose
`pts` is `AV_NOPTS_VALUE` is appended by one iteration (its allocation
succeeding) to the queue of its kind exactly as read, the other queues and the
three origins staying as they are. -/
theorem C6_unknown_pts_unmodified (cfg : Config) (w : World) (once : Int) (pkt : AVPacket)
    (hpts : pkt.pts = AV_NOPTS_VALUE)
    (hkind : cfg.streams pkt.stream_index = AVMEDIA_TYPE_VIDEO ∨
      cfg.streams pkt.stream_index = AVMEDIA_TYPE_AUDIO) :
    ∃ w' once', fill_queues_body cfg w once pkt true = some (w', once') ∧
      same_origins w w' ∧ w'.dataqueue = w.dataqueue ∧
      (cfg.streams pkt.stream_index = AVMEDIA_TYPE_VIDEO →
        w'.videoqueue.first_pkt = w.videoqueue.first_pkt ++ [pkt] ∧
          w'.audioqueue = w.audioqueue) ∧
      (cfg.streams pkt.stream_index = AVMEDIA_TYPE_AUDIO →
        w'.audioqueue.first_pkt = w.audioqueue.first_pkt ++ [pkt] ∧
          w'.videoqueue = w.videoqueue) := by
  unfold fill_queues_body same_origins
  rcases hkind with hv | ha
  · simp [hv, hpts, packet_queue_put]
  · simp [ha, hpts, packet_queue_put]

/-- Witness of C6: an untimestamped audio packet arriving after the origins
were set by a video packet. -/
theorem C6_unknown_pts_unmodified_witness :
    ∃ w' once',
      fill_queues_body av_serial_cfg
        { World.initial with first_pts := 1000, first_video_pts := 1000,
                             first_audio_pts := 48000 } 0
        (mk_packet 1 AV_NOPTS_VALUE [1, 2, 3, 4]) true = some (w', once') ∧
      w'.first_pts = 1000 ∧ w'.first_video_pts = 1000 ∧ w'.first_audio_pts = 48000 ∧
      w'.audioqueue.first_pkt = [mk_packet 1 AV_NOPTS_VALUE [1, 2, 3, 4]] := by
  obtain ⟨w', once', h, ho, _, _, ha⟩ := C6_unknown_pts_unmodified av_serial_cfg
    { World.initial with first_pts := 1000, first_video_pts := 1000,
                         first_audio_pts := 48000 } 0
    (mk_packet 1 AV_NOPTS_VALUE [1, 2, 3, 4]) rfl (Or.inr rfl)
  exact ⟨w', once', h, ho.1, ho.2.1, ho.2.2, (ha rfl).1⟩

/-! ## The claims on the output scheduler and the audio feeder -/

theorem writes_append (a b : List Event) : writes (a ++ b) = writes a ++ writes b := by
  induction a with
  | nil => rfl
  | cons x a ih => cases x <;> simp [writes, ih]

theorem writes_pullingEvents (diag : Option Nat) (v : Bool) :
    writes (pullingEvents diag v) = [] := by
  cases diag <;> rfl

theorem submissions_append (a b : List Event) :
    submissions (a ++ b) = submissions a ++ submissions b := by
  induction a with
  | nil => rfl
  | cons x a ih => cases x <;> simp [submissions, ih]



theorem ScheduleNextFrame_empty_video (cfg : Config) (w : World) (pkt0 : AVPacket)
    (recv sched : Int) (hfd : cfg.serial_fd ≤ 0) (hempty : w.videoqueue.first_pkt = []) :
    ScheduleNextFrame cfg w pkt0 recv sched =
      some { w with
             trace := w.trace ++
               [Event.CreateVideoFrame cfg.m_frameWidth cfg.m_frameHeight (cfg.m_frameWidth * 2),
                Event.GetBytes, Event.avcodec_send_packet pkt0,
                Event.avcodec_receive_frame recv] ++
               (if recv ≥ 0 then
                  [Event.av_image_fill_arrays, Event.sws_scale,
                   Event.ScheduleVideoFrame (wrapInt64 (pkt0.pts * cfg.video_st.num))
                     (wrapInt64 (pkt0.duration * cfg.video_st.num)) cfg.video_st.den] ++
                  (if sched ≠ 0 then [Event.stderr_error_scheduling] else [])
                else []) ++
               [Event.Release, Event.av_packet_unref pkt0] } := by
  have hfd' : ¬ cfg.serial_fd > 0 := not_lt.mpr hfd
  simp [ScheduleNextFrame, serial_forwarding, hfd', get_nil_nonblocking cfg.sizeofCell
    w.videoqueue pkt0 [] hempty, pullingEvents]

/-- C7 (failing input): with all three queues empty and no serial descriptor,
`Player::ScheduleNextFrame` does not return after the non-blocking dequeue: the
test `packet_queue_get(...) < 0` is false for the return value 0, so a device
frame is created, the stale local packet is sent to the decoder, a frame is
scheduled when the decoder reports success, the frame is released and the
packet is unreferenced.  The video queue itself is left as it was. -/
theorem C7_empty_video_queue_not_noop (pkt0 : AVPacket) (sched : Int) :
    ScheduleNextFrame video_only_cfg World.initial pkt0 0 sched =
      some { World.initial with
             trace :=
               [Event.CreateVideoFrame 1920 1080 3840, Event.GetBytes,
                Event.avcodec_send_packet pkt0, Event.avcodec_receive_frame 0,
                Event.av_image_fill_arrays, Event.sws_scale,
                Event.ScheduleVideoFrame (wrapInt64 (pkt0.pts * 1))
                  (wrapInt64 (pkt0.duration * 1)) 1000] ++
               (if sched ≠ 0 then [Event.stderr_error_scheduling] else []) ++
               [Event.Release, Event.av_packet_unref pkt0] } := by
  rw [ScheduleNextFrame_empty_video video_only_cfg World.initial pkt0 0 sched
    (by decide) rfl]
  simp [video_only_cfg, World.initial]

/-- C8 (counterexample): with exactly `kAudioWaterlevel` = 12000 samples
buffered, which is at the watermark, the feeder takes the packet out of the
audio queue and submits its ten samples. -/
theorem C8_counterexample_at_watermark :
    12000 ≥ kAudioWaterlevel ∧
    one_audio_packet_world.audioqueue.first_pkt = [mk_packet 1 480 (List.replicate 40 0)] ∧
    (WriteNextAudioSamples av_serial_cfg { num := 1, den := 48000 } one_audio_packet_world
        12000 [{ result := 0, samplesWritten := 10 }]).1.audioqueue.first_pkt = [] ∧
    submissions (WriteNextAudioSamples av_serial_cfg { num := 1, den := 48000 }
        one_audio_packet_world 12000 [{ result := 0, samplesWritten := 10 }]).1.trace =
      [(0, 10, 480, 48000)] := by
  decide

/-- C8 (as amended): when the device reports strictly more buffered samples
than `kAudioWaterlevel` (48000 / 4 = 12000), `Player::WriteNextAudioSamples`
only queries the device and returns: no queue is touched, nothing is
submitted. -/
theorem C8_above_watermark_noop (cfg : Config) (tb : AVRational) (w : World)
    (bufferedSamples : Nat) (replies : List DeviceReply)
    (h : bufferedSamples > kAudioWaterlevel) :
    WriteNextAudioSamples cfg tb w bufferedSamples replies =
      ({ w with trace := w.trace ++ [Event.GetBufferedAudioSampleFrameCount] },
       Status.returned) := by
  simp [WriteNextAudioSamples, h]

/-- Witness of the amended C8: 12001 buffered samples, one packet queued. -/
theorem C8_above_watermark_noop_witness :
    WriteNextAudioSamples av_serial_cfg { num := 1, den := 48000 } one_audio_packet_world
        12001 [{ result := 0, samplesWritten := 10 }] =
      ({ one_audio_packet_world with
         trace := one_audio_packet_world.trace ++ [Event.GetBufferedAudioSampleFrameCount] },
       Status.returned) :=
  C8_above_watermark_noop av_serial_cfg { num := 1, den := 48000 } one_audio_packet_world
    12001 [{ result := 0, samplesWritten := 10 }] (by decide)

/-- C10 (counterexample): the two-byte payload `" a"` is not the single space,
yet the forwarding step writes nothing: it only unreferences the packet, which
leaves the local `pkt` reset. -/
theorem C10_counterexample_leading_space :
    (mk_packet 2 0 [32, 97]).payload ≠ [32] ∧
    av_serial_cfg.serial_fd > 0 ∧
    space_letter_world.dataqueue.first_pkt = [mk_packet 2 0 [32, 97]] ∧
    serial_forwarding av_serial_cfg space_letter_world AVPacket.zero =
      some ({ World.initial with trace := [Event.av_packet_unref (mk_packet 2 0 [32, 97])] },
            { pts := AV_NOPTS_VALUE, duration := 0, data := [], size := 0,
              stream_index := 0 }) ∧
    writes [Event.av_packet_unref (mk_packet 2 0 [32, 97])] = [] := by
  decide

/-- C10 (as amended): with the serial descriptor open and a packet at the head
of the data queue whose buffer starts with byte `b`, the forwarding step takes
the packet out of the queue and, if and only if `b` is not the space character
(32), writes the whole payload (`pkt.size` bytes) to the descriptor; in both
cases it then unreferences the packet, so the local `pkt` is left reset. -/
theorem C10_forward_unless_first_byte_space (cfg : Config) (w : World) (pkt0 p : AVPacket)
    (rest : List AVPacket) (b : Nat) (tail : List Nat)
    (hfd : cfg.serial_fd > 0) (hq : w.dataqueue.first_pkt = p :: rest)
    (hdata : p.data = b :: tail) :
    ∃ w', serial_forwarding cfg w pkt0 = some (w', av_packet_unref p) ∧
      w'.dataqueue.first_pkt = rest ∧
      w'.trace =
        w.trace ++ pullingEvents (packet_queue_get cfg.sizeofCell w.dataqueue pkt0 0 []).diag
          false ++
        (if b ≠ 32 then [Event.stderr_written p.payload, Event.write cfg.serial_fd p.payload]
         else []) ++ [Event.av_packet_unref p] ∧
      (b ≠ 32 → writes w'.trace = writes w.trace ++ [(cfg.serial_fd, p.payload)]) ∧
      (b = 32 → writes w'.trace = writes w.trace) := by
  have hget := get_cons cfg.sizeofCell w.dataqueue pkt0 0 [] p rest hq
  have hret : (packet_queue_get cfg.sizeofCell w.dataqueue pkt0 0 []).ret = some 1 := by
    rw [hget]
  have hpkt : (packet_queue_get cfg.sizeofCell w.dataqueue pkt0 0 []).pkt = p := by
    rw [hget]
  have hrest : (packet_queue_get cfg.sizeofCell w.dataqueue pkt0 0 []).q.first_pkt = rest := by
    rw [hget]
  refine ⟨{ w with
             dataqueue := (packet_queue_get cfg.sizeofCell w.dataqueue pkt0 0 []).q
             trace := w.trace ++
               pullingEvents (packet_queue_get cfg.sizeofCell w.dataqueue pkt0 0 []).diag false ++
               (if b ≠ 32 then
                  [Event.stderr_written p.payload, Event.write cfg.serial_fd p.payload]
                else []) ++ [Event.av_packet_unref p] }, ?_, ?_, ?_, ?_, ?_⟩
  · simp only [serial_forwarding, hfd, if_true, hret, hpkt, hdata]
    simp
  · exact hrest
  · rfl
  · intro hb
    simp [writes_append, writes_pullingEvents, hb, writes]
  · intro hb
    simp [writes_append, writes_pullingEvents, hb, writes]

/-- Witness of the amended C10: the payload `"ok"` is written as it is. -/
theorem C10_forward_unless_first_byte_space_witness :
    ∃ w', serial_forwarding av_serial_cfg ok_world AVPacket.zero =
        some (w', av_packet_unref (mk_packet 2 0 [111, 107])) ∧
      writes w'.trace = [(5, [111, 107])] := by
  obtain ⟨w', h, _, _, hw, _⟩ := C10_forward_unless_first_byte_space av_serial_cfg ok_world
    AVPacket.zero (mk_packet 2 0 [111, 107]) [] 111 [107] (by decide) rfl rfl
  exact ⟨w', h, hw (by decide)⟩

theorem submissions_err (r : DeviceReply) :
    submissions (if r.result ≠ 0 then [Event.stderr_error_writing] else []) = [] := by
  split_ifs <;> rfl

theorem submissions_call (off : Int) (n : Nat) (t scale : Int) (rest : List Event) :
    submissions (Event.ScheduleAudioSamples off n t scale :: rest) =
      (off, n, t, scale) :: submissions rest := rfl

theorem accepted_before_zero (replies : List DeviceReply) : accepted_before replies 0 = 0 := by
  simp [accepted_before]

theorem accepted_before_succ (r : DeviceReply) (rest : List DeviceReply) (i : Nat) :
    accepted_before (r :: rest) (i + 1) = r.samplesWritten + accepted_before rest i := by
  simp [accepted_before]

theorem sum_pos_of_ne_nil (rest : List DeviceReply)
    (hpos : ∀ r ∈ rest, 1 ≤ r.samplesWritten) (hne : rest ≠ []) :
    1 ≤ (rest.map (fun r => r.samplesWritten)).sum := by
  cases rest with
  | nil => exact absurd rfl hne
  | cons a t =>
    have := hpos a (List.mem_cons_self _ _)
    simp only [List.map_cons, List.sum_cons]
    omega

theorem submit_loop_step (tb : AVRational) (stride : Int) (pkt : AVPacket)
    (samples off : Int) (r : DeviceReply) (rest : List DeviceReply) (hnum : tb.num ≠ 0) :
    submit_loop tb stride pkt samples off (r :: rest) =
      if wrapInt32 (samples - r.samplesWritten) > 0 then
        (Event.ScheduleAudioSamples (wrapInt32 (off * stride)) (samples % 2 ^ 32).toNat
            (wrapInt64 (pkt.pts + off)) (wrapInt32 (Int.tdiv tb.den tb.num)) ::
          (if r.result ≠ 0 then [Event.stderr_error_writing] else []) ++
          (submit_loop tb stride pkt (wrapInt32 (samples - r.samplesWritten))
            (wrapInt32 (off + r.samplesWritten)) rest).1,
         (submit_loop tb stride pkt (wrapInt32 (samples - r.samplesWritten))
            (wrapInt32 (off + r.samplesWritten)) rest).2)
      else
        (Event.ScheduleAudioSamples (wrapInt32 (off * stride)) (samples % 2 ^ 32).toNat
            (wrapInt64 (pkt.pts + off)) (wrapInt32 (Int.tdiv tb.den tb.num)) ::
          (if r.result ≠ 0 then [Event.stderr_error_writing] else []),
         Status.returned) := by
  rw [submit_loop]
  simp [hnum]

theorem submit_loop_nil (tb : AVRational) (stride : Int) (pkt : AVPacket)
    (samples off : Int) (hnum : tb.num ≠ 0) :
    submit_loop tb stride pkt samples off [] =
      ([Event.ScheduleAudioSamples (wrapInt32 (off * stride)) (samples % 2 ^ 32).toNat
          (wrapInt64 (pkt.pts + off)) (wrapInt32 (Int.tdiv tb.den tb.num))],
       Status.submitting) := by
  rw [submit_loop]
  simp [hnum]

theorem lt_of_mul_stride_lt (n : Nat) (stride : Int) (hstride : 0 < stride)
    (h : (n : Int) * stride < 2 ^ 31) : (n : Int) < 2 ^ 31 := by
  have h0 : (0 : Int) ≤ (n : Int) := Int.ofNat_nonneg _
  have h1 : (n : Int) * 1 ≤ (n : Int) * stride :=
    mul_le_mul_of_nonneg_left (by omega) h0
  rw [mul_one] at h1
  exact lt_of_le_of_lt h1 h

theorem wrapInt32_mul_stride (acc n : Nat) (stride : Int) (hstride : 0 < stride)
    (hle : acc ≤ n) (h : (n : Int) * stride < 2 ^ 31) :
    wrapInt32 ((acc : Int) * stride) = (acc : Int) * stride := by
  have h0 : (0 : Int) ≤ (acc : Int) * stride :=
    mul_nonneg (Int.ofNat_nonneg _) (le_of_lt hstride)
  have h1 : (acc : Int) * stride ≤ (n : Int) * stride :=
    mul_le_mul_of_nonneg_right (by exact_mod_cast hle) (le_of_lt hstride)
  have h2 : (acc : Int) * stride < 2 ^ 31 := lt_of_le_of_lt h1 h
  generalize (acc : Int) * stride = x at h0 h2
  exact wrapInt32_of_range x (by omega) h2

theorem toNat_mod_cast (n : Nat) (h : (n : Int) < 2 ^ 31) : ((n : Int) % 2 ^ 32).toNat = n := by
  omega

theorem wrapInt32_sub_cast (n c : Nat) (hc : c ≤ n) (h : (n : Int) < 2 ^ 31) :
    wrapInt32 ((n : Int) - (c : Int)) = ((n - c : Nat) : Int) := by
  unfold wrapInt32
  omega

theorem wrapInt32_add_cast (a c : Nat) (h : (a : Int) + (c : Int) < 2 ^ 31) :
    wrapInt32 ((a : Int) + (c : Int)) = ((a + c : Nat) : Int) := by
  unfold wrapInt32
  omega

theorem submit_loop_run (tb : AVRational) (stride : Int) (pkt : AVPacket)
    (hnum : tb.num ≠ 0) (hstride : 0 < stride) (replies : List DeviceReply) :
    ∀ (rem acc : Nat), (∀ r ∈ replies, 1 ≤ r.samplesWritten) →
      (replies.map (fun r => r.samplesWritten)).sum = rem → 1 ≤ rem →
      ((acc + rem : Nat) : Int) * stride < 2 ^ 31 →
      (submit_loop tb stride pkt (rem : Int) (acc : Int) replies).2 = Status.returned ∧
      submissions (submit_loop tb stride pkt (rem : Int) (acc : Int) replies).1 =
        (List.range replies.length).map (fun i =>
          (((acc + accepted_before replies i : Nat) : Int) * stride,
           rem - accepted_before replies i,
           wrapInt64 (pkt.pts + ((acc + accepted_before replies i : Nat) : Int)),
           wrapInt32 (Int.tdiv tb.den tb.num))) := by
  induction replies with
  | nil =>
    intro rem acc _ hsum hrem _
    rw [List.map_nil, List.sum_nil] at hsum
    rw [← hsum] at hrem
    exact absurd hrem (by decide)
  | cons r rest ih =>
    intro rem acc hpos hsum hrem hbound
    have hc : 1 ≤ r.samplesWritten := hpos r (List.mem_cons_self _ _)
    have hpos' : ∀ x ∈ rest, 1 ≤ x.samplesWritten :=
      fun x hx => hpos x (List.mem_cons_of_mem _ hx)
    rw [List.map_cons, List.sum_cons] at hsum
    have hcr : r.samplesWritten ≤ rem := by rw [← hsum]; exact Nat.le_add_right _ _
    have hsumrest : (rest.map (fun r => r.samplesWritten)).sum = rem - r.samplesWritten := by
      rw [← hsum, Nat.add_sub_cancel_left]
    have hlt : ((acc + rem : Nat) : Int) < 2 ^ 31 :=
      lt_of_mul_stride_lt (acc + rem) stride hstride hbound
    have hrem31 : (rem : Int) < 2 ^ 31 :=
      lt_of_le_of_lt (by exact_mod_cast Nat.le_add_left rem acc) hlt
    have hacc31 : (acc : Int) + (r.samplesWritten : Int) < 2 ^ 31 :=
      lt_of_le_of_lt (by exact_mod_cast Nat.add_le_add_left hcr acc) hlt
    have hoff : wrapInt32 ((acc : Int) * stride) = (acc : Int) * stride :=
      wrapInt32_mul_stride acc (acc + rem) stride hstride (Nat.le_add_right _ _) hbound
    rw [submit_loop_step tb stride pkt _ _ r rest hnum,
      wrapInt32_sub_cast rem r.samplesWritten hcr hrem31,
      wrapInt32_add_cast acc r.samplesWritten hacc31, hoff, toNat_mod_cast rem hrem31]
    by_cases hrest : rest = []
    · subst hrest
      have hrc : rem - r.samplesWritten = 0 := by
        rw [← hsumrest, List.map_nil, List.sum_nil]
      have hng : ¬ (((rem - r.samplesWritten : Nat) : Int) > 0) := by
        rw [hrc]; exact lt_irrefl _
      rw [if_neg hng]
      refine ⟨rfl, ?_⟩
      rw [submissions_call, submissions_err]
      show _ = List.map _ [0]
      rw [List.map_cons, List.map_nil, accepted_before_zero, Nat.add_zero, Nat.sub_zero]
    · have hs := sum_pos_of_ne_nil rest hpos' hrest
      rw [hsumrest] at hs
      have hgt : ((rem - r.samplesWritten : Nat) : Int) > 0 := by exact_mod_cast hs
      have hb' : ((acc + r.samplesWritten + (rem - r.samplesWritten) : Nat) : Int) * stride <
          2 ^ 31 := by
        have : acc + r.samplesWritten + (rem - r.samplesWritten) = acc + rem := by
          rw [Nat.add_assoc, Nat.add_sub_cancel' hcr]
        rw [this]; exact hbound
      obtain ⟨ih1, ih2⟩ := ih (rem - r.samplesWritten) (acc + r.samplesWritten) hpos'
        hsumrest hs hb'
      rw [if_pos hgt]
      refine ⟨ih1, ?_⟩
      show submissions (_ :: (_ ++ _)) = _
      rw [submissions_call, submissions_append, submissions_err, List.nil_append, ih2,
        List.length_cons, List.range_succ_eq_map, List.map_cons, List.map_map,
        accepted_before_zero, Nat.add_zero, Nat.sub_zero]
      congr 1
      apply List.map_congr_left
      intro i _
      simp only [Function.comp, accepted_before_succ, Nat.succ_eq_add_one]
      rw [Nat.add_assoc, Nat.sub_sub]

theorem submit_loop_not_done (tb : AVRational) (stride : Int) (pkt : AVPacket)
    (hnum : tb.num ≠ 0) (replies : List DeviceReply) :
    ∀ (rem acc j : Nat), (∀ r ∈ replies, 1 ≤ r.samplesWritten) →
      (replies.map (fun r => r.samplesWritten)).sum = rem →
      ((acc + rem : Nat) : Int) < 2 ^ 31 → j < replies.length →
      (submit_loop tb stride pkt (rem : Int) (acc : Int) (replies.take j)).2 =
        Status.submitting := by
  induction replies with
  | nil => intro rem acc j _ _ _ hj; exact absurd hj (Nat.not_lt_zero _)
  | cons r rest ih =>
    intro rem acc j hpos hsum hlt hj
    cases j with
    | zero => rw [List.take_zero, submit_loop_nil tb stride pkt _ _ hnum]
    | succ j =>
      have hj' : j < rest.length := Nat.lt_of_succ_lt_succ hj
      have hpos' : ∀ x ∈ rest, 1 ≤ x.samplesWritten :=
        fun x hx => hpos x (List.mem_cons_of_mem _ hx)
      have hne : rest ≠ [] := by
        intro h; rw [h] at hj'; exact absurd hj' (Nat.not_lt_zero _)
      have hs := sum_pos_of_ne_nil rest hpos' hne
      rw [List.map_cons, List.sum_cons] at hsum
      have hcr : r.samplesWritten ≤ rem := by rw [← hsum]; exact Nat.le_add_right _ _
      have hsumrest : (rest.map (fun r => r.samplesWritten)).sum = rem - r.samplesWritten := by
        rw [← hsum, Nat.add_sub_cancel_left]
      rw [hsumrest] at hs
      have hrem31 : (rem : Int) < 2 ^ 31 :=
        lt_of_le_of_lt (by exact_mod_cast Nat.le_add_left rem acc) hlt
      have hacc31 : (acc : Int) + (r.samplesWritten : Int) < 2 ^ 31 :=
        lt_of_le_of_lt (by exact_mod_cast Nat.add_le_add_left hcr acc) hlt
      have hgt : ((rem - r.samplesWritten : Nat) : Int) > 0 := by exact_mod_cast hs
      have hlt' : ((acc + r.samplesWritten + (rem - r.samplesWritten) : Nat) : Int) < 2 ^ 31 := by
        have : acc + r.samplesWritten + (rem - r.samplesWritten) = acc + rem := by
          rw [Nat.add_assoc, Nat.add_sub_cancel' hcr]
        rw [this]; exact hlt
      rw [List.take_succ_cons, submit_loop_step tb stride pkt _ _ r _ hnum,
        wrapInt32_sub_cast rem r.samplesWritten hcr hrem31,
        wrapInt32_add_cast acc r.samplesWritten hacc31, if_pos hgt]
      exact ih (rem - r.samplesWritten) (acc + r.samplesWritten) j hpos' hsumrest hlt' hj'

theorem le_largest_chunk (replies : List DeviceReply) :
    ∀ r ∈ replies, r.samplesWritten ≤ largest_chunk replies := by
  induction replies with
  | nil => intro r hr; simp at hr
  | cons a t ih =>
    intro r hr
    simp only [largest_chunk, List.map_cons, List.foldr_cons]
    rcases List.mem_cons.mp hr with h | h
    · rw [h]; exact le_max_left _ _
    · exact le_trans (ih r h) (le_max_right _ _)

theorem sum_le_length_mul_largest (replies : List DeviceReply) :
    (replies.map (fun r => r.samplesWritten)).sum ≤ replies.length * largest_chunk replies := by
  have h := le_largest_chunk replies
  generalize largest_chunk replies = m at h
  induction replies with
  | nil => simp
  | cons a t ih =>
    have ha := h a (List.mem_cons_self _ _)
    have ht := ih (fun r hr => h r (List.mem_cons_of_mem _ hr))
    simp only [List.map_cons, List.sum_cons, List.length_cons]
    rw [Nat.add_mul, Nat.one_mul]
    omega

theorem tdiv_mul_le_of_pos (a b : Int) (hb : 0 < b) (h : 1 ≤ Int.tdiv a b) :
    Int.tdiv a b * b ≤ a := by
  have ha : 0 ≤ a := by
    by_contra hneg
    have hna : 0 ≤ -a := by omega
    have h1 := Int.tdiv_nonneg hna (le_of_lt hb)
    rw [Int.neg_tdiv] at h1
    omega
  rw [Int.tdiv_eq_ediv ha (le_of_lt hb)]
  exact Int.ediv_mul_le a (ne_of_gt hb)

theorem WriteNextAudioSamples_dequeued (cfg : Config) (tb : AVRational) (w : World)
    (bufferedSamples : Nat) (replies : List DeviceReply) (p : AVPacket) (rest : List AVPacket)
    (hlevel : bufferedSamples ≤ kAudioWaterlevel) (hq : w.audioqueue.first_pkt = p :: rest)
    (hstride : wrapInt32 (cfg.sample_bytes * cfg.channels) ≠ 0)
    (hret : (submit_loop tb (wrapInt32 (cfg.sample_bytes * cfg.channels)) p
      (wrapInt32 (Int.tdiv p.size (wrapInt32 (cfg.sample_bytes * cfg.channels)))) 0
      replies).2 = Status.returned) :
    WriteNextAudioSamples cfg tb w bufferedSamples replies =
      ({ w with
         audioqueue := (packet_queue_get cfg.sizeofCell w.audioqueue AVPacket.zero 0 []).q
         trace := w.trace ++ [Event.GetBufferedAudioSampleFrameCount] ++
           pullingEvents (packet_queue_get cfg.sizeofCell w.audioqueue AVPacket.zero 0 []).diag
             false ++
           (submit_loop tb (wrapInt32 (cfg.sample_bytes * cfg.channels)) p
             (wrapInt32 (Int.tdiv p.size (wrapInt32 (cfg.sample_bytes * cfg.channels)))) 0
             replies).1 ++ [Event.av_packet_unref p] }, Status.returned) := by
  have hget := get_cons cfg.sizeofCell w.audioqueue AVPacket.zero 0 [] p rest hq
  have hr : (packet_queue_get cfg.sizeofCell w.audioqueue AVPacket.zero 0 []).ret = some 1 := by
    rw [hget]
  have hp : (packet_queue_get cfg.sizeofCell w.audioqueue AVPacket.zero 0 []).pkt = p := by
    rw [hget]
  have hnot : ¬ bufferedSamples > kAudioWaterlevel := Nat.not_lt.mpr hlevel
  unfold WriteNextAudioSamples
  simp only [hnot, if_false, hr, hp, hstride, hret]
  simp

/-- C9 (partial writes): for a packet of `S ≥ 1` samples (`S` is
`pkt.size / bytes_per_sample`, `bytes_per_sample > 0`) and a device whose
successive replies accept `c1, ..., ck` samples, every `ci ≥ 1` and
`c1 + ... + ck = S`, the submit loop of `Player::WriteNextAudioSamples`
returns after exactly `k` submissions; the `i`-th one starts
`(c1 + ... + c(i-1)) * bytes_per_sample` bytes into the buffer, requests
`S - (c1 + ... + c(i-1))` samples and carries the stream time
`pkt.pts + (c1 + ... + c(i-1))` (in `int64_t`); after any `j < k` replies the
loop is still submitting; and `k` is at least `S` divided by the largest
`ci`, rounded up. -/
theorem C9_partial_write_loop (tb : AVRational) (stride : Int) (pkt : AVPacket)
    (replies : List DeviceReply) (S : Nat)
    (hnum : tb.num ≠ 0) (hstride : 0 < stride) (hsize : pkt.size < 2 ^ 31)
    (hS : Int.tdiv pkt.size stride = S) (hS1 : 1 ≤ S)
    (hpos : ∀ r ∈ replies, 1 ≤ r.samplesWritten)
    (hsum : (replies.map (fun r => r.samplesWritten)).sum = S) :
    (submit_loop tb stride pkt (wrapInt32 (Int.tdiv pkt.size stride)) 0 replies).2 =
      Status.returned ∧
    submissions (submit_loop tb stride pkt (wrapInt32 (Int.tdiv pkt.size stride)) 0 replies).1 =
      (List.range replies.length).map (fun i =>
        ((accepted_before replies i : Int) * stride,
         S - accepted_before replies i,
         wrapInt64 (pkt.pts + (accepted_before replies i : Int)),
         wrapInt32 (Int.tdiv tb.den tb.num))) ∧
    (∀ j < replies.length,
      (submit_loop tb stride pkt (wrapInt32 (Int.tdiv pkt.size stride)) 0
        (replies.take j)).2 = Status.submitting) ∧
    (S + largest_chunk replies - 1) / largest_chunk replies ≤ replies.length := by
  have hmul : (S : Int) * stride ≤ pkt.size := by
    have := tdiv_mul_le_of_pos pkt.size stride hstride (by rw [hS]; exact_mod_cast hS1)
    rwa [hS] at this
  have hSle : (S : Int) ≤ (S : Int) * stride := by
    have h0 : (0 : Int) ≤ (S : Int) := Int.ofNat_nonneg _
    nlinarith
  have hwrap : wrapInt32 (Int.tdiv pkt.size stride) = (S : Int) := by
    rw [hS]
    exact wrapInt32_of_range _ (by omega) (by omega)
  have hbound : ((0 + S : Nat) : Int) * stride < 2 ^ 31 := by
    rw [Nat.zero_add]; omega
  obtain ⟨h1, h2⟩ := submit_loop_run tb stride pkt hnum hstride replies S 0 hpos hsum hS1 hbound
  have hnd := fun j hj => submit_loop_not_done tb stride pkt hnum replies S 0 j hpos hsum
    (lt_of_mul_stride_lt (0 + S) stride hstride hbound) hj
  simp only [Nat.cast_zero, Nat.zero_add] at h1 h2 hnd
  rw [hwrap]
  refine ⟨h1, h2, hnd, ?_⟩
  have hle := sum_le_length_mul_largest replies
  rw [hsum] at hle
  have hm : 0 < largest_chunk replies := by
    rcases Nat.eq_zero_or_pos (largest_chunk replies) with h0 | h0
    · rw [h0, Nat.mul_zero] at hle
      exact absurd hS1 (by rw [Nat.le_zero.mp hle]; decide)
    · exact h0
  apply Nat.le_of_lt_succ
  rw [Nat.div_lt_iff_lt_mul hm, Nat.succ_mul]
  generalize replies.length * largest_chunk replies = km at hle
  generalize largest_chunk replies = m at hm
  omega

/-- Witness of C9: a 16-bit stereo packet of ten samples with timestamp 480,
accepted in chunks of 4, 3 and 3 samples, the second reply reporting an
error. -/
theorem C9_partial_write_loop_witness :
    (submit_loop { num := 1, den := 48000 } 4 (mk_packet 1 480 (List.replicate 40 0))
        (wrapInt32 (Int.tdiv (mk_packet 1 480 (List.replicate 40 0)).size 4)) 0
        [{ result := 0, samplesWritten := 4 }, { result := 1, samplesWritten := 3 },
         { result := 0, samplesWritten := 3 }]).2 = Status.returned ∧
    submissions (submit_loop { num := 1, den := 48000 } 4
        (mk_packet 1 480 (List.replicate 40 0))
        (wrapInt32 (Int.tdiv (mk_packet 1 480 (List.replicate 40 0)).size 4)) 0
        [{ result := 0, samplesWritten := 4 }, { result := 1, samplesWritten := 3 },
         { result := 0, samplesWritten := 3 }]).1 =
      [(0, 10, 480, 48000), (16, 6, 484, 48000), (28, 3, 487, 48000)] := by
  have h := C9_partial_write_loop { num := 1, den := 48000 } 4
    (mk_packet 1 480 (List.replicate 40 0))
    [{ result := 0, samplesWritten := 4 }, { result := 1, samplesWritten := 3 },
     { result := 0, samplesWritten := 3 }] 10
    (by decide) (by decide) (by decide) (by decide) (by decide) (by decide) (by decide)
  exact ⟨h.1, h.2.1.trans (by decide)⟩

/-! ## The unset audio origin -/

theorem wrapInt64_sub_nopts_mod (t : Int) :
    wrapInt64 (t - AV_NOPTS_VALUE) % 2 ^ 64 = (t + 2 ^ 63) % 2 ^ 64 := by
  unfold wrapInt64 AV_NOPTS_VALUE
  omega

theorem body_video_sets_first_pts (cfg : Config) (w : World) (once : Int) (pkt : AVPacket)
    (alloc : Bool) (hnone : cfg.audio_st = none) (hunset : w.first_pts = AV_NOPTS_VALUE)
    (hv : cfg.streams pkt.stream_index = AVMEDIA_TYPE_VIDEO)
    (hp : pkt.pts ≠ AV_NOPTS_VALUE) :
    ∃ w' once', fill_queues_body cfg w once pkt alloc = some (w', once') ∧
      w'.first_pts = pkt.pts ∧ w'.first_audio_pts = w.first_audio_pts ∧
      w'.audioqueue = w.audioqueue := by
  unfold fill_queues_body
  simp [hv, hp, hunset, hnone]

theorem body_audio_after_origin (cfg : Config) (w : World) (once : Int) (pkt : AVPacket)
    (hset : w.first_pts ≠ AV_NOPTS_VALUE)
    (ha : cfg.streams pkt.stream_index = AVMEDIA_TYPE_AUDIO)
    (hp : pkt.pts ≠ AV_NOPTS_VALUE) :
    ∃ w' once', fill_queues_body cfg w once pkt true = some (w', once') ∧
      w'.first_audio_pts = w.first_audio_pts ∧
      w'.audioqueue.first_pkt =
        w.audioqueue.first_pkt ++ [shift_pts w.first_audio_pts pkt] := by
  unfold fill_queues_body
  simp [ha, hp, hset, packet_queue_put, shift_pts]

/-- C13 (shift by the unset origin): with `audio.st` null and the origins
unset, a video packet with a known timestamp sets `first_pts` and leaves
`first_audio_pts` at `AV_NOPTS_VALUE`; the audio packet with known timestamp
`t` that follows is then appended to the audio queue with the timestamp
`t - AV_NOPTS_VALUE` reduced to `int64_t`, whose 64-bit pattern is
`(t + 2^63) mod 2^64`. -/
theorem C13_audio_shifted_by_unset_origin (cfg : Config) (w : World) (once : Int)
    (pv pa : AVPacket) (alloc : Bool)
    (hnone : cfg.audio_st = none) (hunset : w.first_pts = AV_NOPTS_VALUE)
    (hau : w.first_audio_pts = AV_NOPTS_VALUE)
    (hv : cfg.streams pv.stream_index = AVMEDIA_TYPE_VIDEO) (hvp : pv.pts ≠ AV_NOPTS_VALUE)
    (ha : cfg.streams pa.stream_index = AVMEDIA_TYPE_AUDIO) (hap : pa.pts ≠ AV_NOPTS_VALUE) :
    ∃ w2 o2, fill_queues_iterate cfg w once [(pv, alloc), (pa, true)] = some (w2, o2) ∧
      w2.first_audio_pts = AV_NOPTS_VALUE ∧
      w2.audioqueue.first_pkt =
        w.audioqueue.first_pkt ++ [{ pa with pts := wrapInt64 (pa.pts - AV_NOPTS_VALUE) }] ∧
      wrapInt64 (pa.pts - AV_NOPTS_VALUE) % 2 ^ 64 = (pa.pts + 2 ^ 63) % 2 ^ 64 := by
  obtain ⟨w1, o1, h1, hf1, ha1, hq1⟩ :=
    body_video_sets_first_pts cfg w once pv alloc hnone hunset hv hvp
  have hset : w1.first_pts ≠ AV_NOPTS_VALUE := by rw [hf1]; exact hvp
  obtain ⟨w2, o2, h2, ha2, hq2⟩ := body_audio_after_origin cfg w1 o1 pa hset ha hap
  refine ⟨w2, o2, ?_, ?_, ?_, wrapInt64_sub_nopts_mod pa.pts⟩
  · simp only [fill_queues_iterate, h1, h2]
  · rw [ha2, ha1, hau]
  · rw [hq2, hq1, ha1, hau]
    rfl

/-- Witness of C13: a video packet with timestamp 1000, then an audio packet
with timestamp 480, no audio decoder; the audio packet is queued with the
timestamp 480 - 2^63. -/
theorem C13_audio_shifted_by_unset_origin_witness :
    ∃ w2 o2, fill_queues_iterate undecoded_audio_cfg World.initial 0
        [(mk_packet 0 1000 [], true), (mk_packet 1 480 [], true)] = some (w2, o2) ∧
      w2.first_audio_pts = AV_NOPTS_VALUE ∧
      w2.audioqueue.first_pkt.map (fun p => p.pts) = [480 - 2 ^ 63] := by
  obtain ⟨w2, o2, h, ha, hq, _⟩ := C13_audio_shifted_by_unset_origin undecoded_audio_cfg
    World.initial 0 (mk_packet 0 1000 []) (mk_packet 1 480 []) true rfl rfl rfl rfl
    (by decide) rfl (by decide)
  refine ⟨w2, o2, h, ha, ?_⟩
  rw [hq]
  decide

/-! ## The claims on start-up and exit -/

theorem Init_unsupported_channels_bails (env : InitEnv) (videomode connection camera : Int)
    (a : AudioCodec) (hit : env.iterator = true) (ha : env.audio = some a)
    (hch : ¬ (a.channels = 2 ∨ a.channels = 8 ∨ a.channels = 16)) :
    Init env videomode connection camera =
      { steps := [InitStep.CreateDeckLinkIteratorInstance, InitStep.av_get_exact_bits_per_sample,
                  InitStep.stderr_channels_unsupported a.channels] ++
                 bail false env.stale_output env.stale_deckLink true
        ret := some true } := by
  unfold Init
  simp [hit, ha, audio_checks, hch]

theorem audio_checks_unsupported_depth (a : AudioCodec)
    (hch : a.channels = 2 ∨ a.channels = 8 ∨ a.channels = 16)
    (hbits : ¬ (a.exact_bits = 16 ∨ a.exact_bits = 32)) :
    audio_checks (some a) =
      ([InitStep.av_get_exact_bits_per_sample, InitStep.stderr_depth_unsupported a.exact_bits],
       false) := by
  simp only [audio_checks]
  rw [if_pos hch, if_neg hbits]

theorem Init_unsupported_depth_creates_thread (env : InitEnv)
    (videomode connection camera : Int) (a : AudioCodec)
    (hit : env.iterator = true) (ha : env.audio = some a)
    (hch : a.channels = 2 ∨ a.channels = 8 ∨ a.channels = 16)
    (hbits : ¬ (a.exact_bits = 16 ∨ a.exact_bits = 32))
    (hnext : env.next ((if camera < 0 then 1 else camera.toNat + 1) - 1) = 0)
    (hout : env.query_output = 0) (hcfg : env.query_configuration = 0)
    (hconn : ¬ (1 ≤ connection ∧ connection ≤ 4)) :
    InitStep.stderr_depth_unsupported a.exact_bits ∈
        (Init env videomode connection camera).steps ∧
      InitStep.packet_queue_init_all ∈ (Init env videomode connection camera).steps ∧
      InitStep.pthread_create_fill_queues ∈ (Init env videomode connection camera).steps := by
  have hchecks := audio_checks_unsupported_depth a hch hbits
  unfold Init
  simp only [hit, ha, hchecks, hnext, hout, hcfg, hconn]
  by_cases hw : env.woken = false <;> simp [hw]

theorem Init_ret (env : InitEnv) (videomode connection camera : Int) :
    (Init env videomode connection camera).ret = none ∨
      (Init env videomode connection camera).ret = some true := by
  unfold Init
  dsimp only
  split_ifs <;> first | exact Or.inl rfl | exact Or.inr rfl

theorem main_exit_is_one (video_st_present : Bool) (env : InitEnv)
    (videomode connection camera : Int) (e : Int)
    (h : (main video_st_present env videomode connection camera).exit = some e) : e = 1 := by
  unfold main at h
  cases video_st_present with
  | false => simp at h; exact h.symm
  | true =>
    rcases Init_ret env videomode connection camera with hr | hr
    · simp [hr] at h
    · simp [hr] at h
      exact h.symm

/-- C11 (failing input): a stereo audio stream with 24 exact bits per sample,
every device call succeeding.  `Player::Init` prints the "24bit audio not
supported" message and goes on: it initialises the three queues, creates the
`fill_queues` thread, starts playback with `EnableAudioOutput(.., 24, 2, ..)`
and only reaches `bail` after the shutdown signal. -/
theorem C11_unsupported_depth_starts_thread :
    Init (healthy_env (some { channels := 2, exact_bits := 24 })) 2 0 0 =
      { steps :=
          [InitStep.CreateDeckLinkIteratorInstance, InitStep.av_get_exact_bits_per_sample,
           InitStep.stderr_depth_unsupported 24, InitStep.Next,
           InitStep.QueryInterface_output, InitStep.QueryInterface_configuration,
           InitStep.set_callbacks, InitStep.av_frame_alloc, InitStep.packet_queue_init_all,
           InitStep.pthread_create_fill_queues, InitStep.usleep 2000000,
           InitStep.GetDisplayModeByIndex 2, InitStep.EnableVideoOutput,
           InitStep.EnableAudioOutput 24 2] ++
          List.replicate 10 InitStep.ScheduleNextFrame_preroll ++
          [InitStep.BeginAudioPreroll, InitStep.wait_sleepCond, InitStep.clear_fill_me,
           InitStep.stderr_exiting, InitStep.packet_queue_end_audioqueue,
           InitStep.packet_queue_end_videoqueue, InitStep.StopRunning,
           InitStep.release_iterator]
        ret := some true } := by
  decide

/-- C12 (failing input): a video-only source and a source with 16-bit stereo
audio, every device call succeeding, playback started and ended by the
shutdown signal: `main` returns 1, the `true` of `Player::Init` converted to
`int`, after `StopRunning` and the release of the iterator. -/
theorem C12_normal_completion_exits_one :
    main true (healthy_env none) 2 0 0 =
      { steps :=
          [InitStep.log_no_audio, InitStep.prepare_playback,
           InitStep.CreateDeckLinkIteratorInstance, InitStep.Next,
           InitStep.QueryInterface_output, InitStep.QueryInterface_configuration,
           InitStep.set_callbacks, InitStep.av_frame_alloc, InitStep.packet_queue_init_all,
           InitStep.pthread_create_fill_queues, InitStep.usleep 2000000,
           InitStep.GetDisplayModeByIndex 2, InitStep.EnableVideoOutput] ++
          List.replicate 10 InitStep.ScheduleNextFrame_preroll ++
          [InitStep.StartScheduledPlayback, InitStep.wait_sleepCond, InitStep.clear_fill_me,
           InitStep.stderr_exiting, InitStep.packet_queue_end_audioqueue,
           InitStep.packet_queue_end_videoqueue, InitStep.StopRunning,
           InitStep.release_iterator, InitStep.avformat_close_input,
           InitStep.stderr_queue_counts]
        exit := some 1 } ∧
    (main true (healthy_env (some { channels := 2, exact_bits := 16 })) 2 0 0).exit =
      some 1 := by
  decide

end BmdPlay
